import Mathlib

/-!
Verification development for the r.import.ghs GRASS GIS addon
(src/r.import.ghs.py).

The script downloads Global Human Settlement raster tiles, imports them
into a GRASS location and optionally mosaics several tiles into a single
output.  We give a shallow embedding: every externally visible action
(wget download, zip extraction, GRASS module invocation, file/dir removal)
is recorded as a `Cmd` in a trace, the module-level mutable registries
(`rm_files`, `rm_folders`, `rm_rasters`, `rm_vectors`, `TMPLOC`,
`SRCGISRC`, `TGTGISRC`, `GISDBASE`) are the state `S`, and `grass.fatal`
(which raises and exits) is modelled by `Except.error`.  The outside
world (free RAM, tile-index query results, download failures, removal
failures) is an `Env` record.
-/

/-- Decimal digits of `n` as characters, most significant first; `fuel`
bounds the recursion depth (any `fuel ≥ n` gives the exact digits). -/
def natStrAux : Nat → Nat → List Char
  | _, 0 => []
  | 0, _ => []
  | fuel + 1, n + 1 =>
    natStrAux fuel ((n + 1) / 10) ++ [Char.ofNat (48 + (n + 1) % 10)]

/-- Python `str(n)` / `"...".format(n)` for a natural number:
decimal rendering. -/
def natStr (n : Nat) : String :=
  if n = 0 then "0" else String.mk (natStrAux n n)

/-- Whether the first list is a prefix of the second. -/
def charsIsPre : List Char → List Char → Bool
  | [], _ => true
  | _ :: _, [] => false
  | a :: as, b :: bs => a == b && charsIsPre as bs

/-- Splitting worker: walks the input left to right, cutting at each
non-overlapping occurrence of the (non-empty) separator; `fuel` bounds
the walk (any `fuel ≥` input length is exact).  `cur` holds the current
piece reversed. -/
def splitCharsAux (sep : List Char) : Nat → List Char → List Char → List (List Char)
  | _, cur, [] => [cur.reverse]
  | 0, cur, l => [cur.reverse ++ l]
  | fuel + 1, cur, c :: rest =>
    if charsIsPre sep (c :: rest) then
      cur.reverse :: splitCharsAux sep fuel [] (List.drop (sep.length - 1) rest)
    else
      splitCharsAux sep fuel (c :: cur) rest

/-- Python `s.split(sep)` for a non-empty separator. -/
def pySplit (s sep : String) : List String :=
  (splitCharsAux sep.data s.data.length [] s.data).map String.mk

/-- Python `sep.join(l)`. -/
def strIntercalate (sep : String) : List String → String
  | [] => ""
  | [x] => x
  | x :: xs => x ++ sep ++ strIntercalate sep xs

/-- `s.startswith(pre)`. -/
def pyStartsWith (s pre : String) : Bool := charsIsPre pre.data s.data

/-- `s.endswith(suf)`. -/
def pyEndsWith (s suf : String) : Bool := charsIsPre suf.data.reverse s.data.reverse

/-- `os.path.basename`: the part after the last slash. -/
def pyBasename (p : String) : String :=
  (pySplit p "/").getLastD p

/-- Root of `os.path.splitext` for a name with a simple trailing
extension: everything before the last dot (the whole name if there is
no dot). -/
def pySplitextRoot (p : String) : String :=
  let parts := pySplit p "."
  if parts.length ≤ 1 then p else strIntercalate "." parts.dropLast

/-- `os.path.join a b` for POSIX paths. -/
def pyJoin (a b : String) : String :=
  if pyStartsWith b "/" then b
  else if a = "" then b
  else if pyEndsWith a "/" then a ++ b
  else a ++ "/" ++ b

/-- `urllib.parse.urlparse(url).path` for an `http(s)://host/...` URL
without query or fragment. -/
def urlPath (url : String) : String :=
  match pySplit url "://" with
  | [_, rest] =>
    match pySplit rest "/" with
    | [] => ""
    | [_] => ""
    | _ :: ps => "/" ++ strIntercalate "/" ps
  | _ => url

/-- Python `s.split(sep)[0]`: the part before the first occurrence of
`sep` (the whole string if `sep` does not occur). -/
def pySplitHead (s sep : String) : String :=
  (pySplit s sep).headD s

/-- Python `s.split("|")[-1]`: the part after the last pipe. -/
def lastPipe (s : String) : String :=
  (pySplit s "|").getLastD s

/-- One externally visible action of the script. -/
inductive Cmd where
  | message (msg : String)
  | warning (msg : String)
  | makedirs (dir : String)
  | wgetDownload (url : String) (localPath : String)
  | extractAll (zipPath : String) (destDir : String)
  | vInRegion (output : String)
  | vImport (inputFile : String) (output : String)
  | vSelect (ainput : String) (binput : String) (output : String)
  | vDbSelect (map : String)
  | vInGeojson (output : String)
  | vProj (location : String) (mapset : String) (inputMap : String) (output : String)
  | gProjCreateLoc (location : String) (epsg : Nat)
  | setGisrc (path : String)
  | rImport (inputFile : String) (output : String) (memory : Int) (regionRes : Bool)
  | rPatch (inputs : List String) (output : String)
  | gRemoveVector (name : String)
  | gRemoveRaster (name : String)
  | osRemove (path : String)
  | rmtree (path : String)
  | tryRmdir (path : String)
  | tryRemove (path : String)
  deriving Repr, DecidableEq

/-- The script's module-level mutable state: the four removal registries
and the four location-related globals, plus the trace of actions
performed so far. -/
structure S where
  rm_files : List String
  rm_folders : List String
  rm_rasters : List String
  rm_vectors : List String
  tmploc : Option String
  srcgisrc : Option String
  tgtgisrc : Option String
  gisdbase : Option String
  trace : List Cmd
  deriving Repr, DecidableEq

/-- The outside world, fixed for one run. -/
structure Env where
  pid : Nat
  tempdirPath : String
  tempfilePath : String
  dirExists : Bool
  vInGeojsonFound : Bool
  memAvailable : Nat
  swapFree : Nat
  downloadFails : String → Bool
  s2_rows : List String
  ghs_rows : List String
  gisenvLocation : String
  gisenvMapset : String
  gisenvDbase : String
  gisrcInitial : String
  tmplocEpsgOk : Bool
  vectorExists : String → Bool
  rasterExists : String → Bool
  gRemoveVectorFails : String → Bool
  gRemoveRasterFails : String → Bool
  osRemoveFails : String → Bool
  isDirFolder : String → Bool
  rmtreeFails : String → Bool

/-- The script monad: state plus fatal abort (grass.fatal raises
SystemExit; the state at abort time is kept because the atexit cleanup
handler still sees it). -/
def M (α : Type) : Type := S → Except String α × S

def M.pure (a : α) : M α := fun s => (Except.ok a, s)

def M.bind (m : M α) (f : α → M β) : M β := fun s =>
  match m s with
  | (Except.ok a, s1) => f a s1
  | (Except.error e, s1) => (Except.error e, s1)

instance : Monad M where
  pure := M.pure
  bind := M.bind

def M.run (m : M α) (s : S) : Except String α × S := m s

/-- Record one external action. -/
def emit (c : Cmd) : M Unit := fun s =>
  (Except.ok (), { s with trace := s.trace ++ [c] })

/-- `grass.fatal`: report and abort the run. -/
def fatal (msg : String) : M α := fun s => (Except.error msg, s)

def addFile (f : String) : M Unit := fun s =>
  (Except.ok (), { s with rm_files := s.rm_files ++ [f] })

def addFolder (d : String) : M Unit := fun s =>
  (Except.ok (), { s with rm_folders := s.rm_folders ++ [d] })

def addRaster (r : String) : M Unit := fun s =>
  (Except.ok (), { s with rm_rasters := s.rm_rasters ++ [r] })

def addVector (v : String) : M Unit := fun s =>
  (Except.ok (), { s with rm_vectors := s.rm_vectors ++ [v] })

def setTmploc (x : String) : M Unit := fun s =>
  (Except.ok (), { s with tmploc := some x })

def setSrcgisrc (x : String) : M Unit := fun s =>
  (Except.ok (), { s with srcgisrc := some x })

def setTgtgisrc (x : String) : M Unit := fun s =>
  (Except.ok (), { s with tgtgisrc := some x })

def setGisdbase (x : String) : M Unit := fun s =>
  (Except.ok (), { s with gisdbase := some x })

def getS : M S := fun s => (Except.ok s, s)


/-- `freeRAM(unit, percent)` from src/r.import.ghs.py lines 119-143:
given `psutil.virtual_memory().available` and `psutil.swap_memory().free`
in bytes, returns the rounded number of MB (or GB) of free memory,
scaled by `percent`; any other unit hits `grass.fatal`, modelled by
`Except.error`.  Python floats are modelled as exact rationals. -/
def freeRAM (unit : String) (percent : Nat) (memAvailable swapFree : Nat) :
    Except String Int :=
  let memory_GB : ℚ := ((memAvailable : ℚ) + (swapFree : ℚ)) / 1024 ^ 3
  let memory_MB : ℚ := ((memAvailable : ℚ) + (swapFree : ℚ)) / 1024 ^ 2
  if unit = "MB" then Except.ok (round (memory_MB * percent / 100))
  else if unit = "GB" then Except.ok (round (memory_GB * percent / 100))
  else Except.error ("Memory unit <" ++ unit ++ "> not supported")

/-- The value `freeRAM("MB", 100)` computes for a given environment. -/
def free_ram_mb (env : Env) : Int :=
  round ((((env.memAvailable : ℚ) + (env.swapFree : ℚ)) / 1024 ^ 2) * 100 / 100)

/-- `test_memory()` from lines 146-153: reads the requested memory
budget, compares with `freeRAM("MB", 100)` and clamps it downward with
two warnings when the request exceeds availability.  Returns the value
that ends up in `options["memory"]`. -/
def test_memory (memory : Int) (env : Env) : M Int := do
  match freeRAM "MB" 100 env.memAvailable env.swapFree with
  | Except.error e => fatal e
  | Except.ok free_ram =>
    if free_ram < memory then do
      emit (Cmd.warning ("Using " ++ toString memory ++ " MB but only " ++
        toString free_ram ++ " MB RAM available."))
      emit (Cmd.warning ("Set used memory to " ++ toString free_ram ++ " MB."))
      pure free_ram
    else
      pure memory

/-- `download_wget(url, local_path)` from lines 275-280: a single
`wget.download` attempt; any exception is `grass.fatal` (no retry). -/
def download_wget (env : Env) (url local_path : String) : M Int := do
  emit (Cmd.wgetDownload url local_path)
  if env.downloadFails url then
    fatal ("There was a problem downloading " ++ url)
  else
    pure 0

/-- `download_onefile(url, dir, format)` from lines 283-296: downloads
the zip at `url` into `dir`, registers it in `rm_files`, extracts it
fully into the `<basename>_unzipped` subfolder (registered in
`rm_folders`) and returns `dir/<basename>_unzipped/<basename>.<format>`
by pure convention, without checking that this file exists. -/
def download_onefile (env : Env) (url dir fmt : String) : M String := do
  let basepath := urlPath url
  let zip_name := pyBasename basepath
  let base_filename := pySplitextRoot zip_name
  let ext_name := base_filename ++ "." ++ fmt
  let local_path_zip := pyJoin dir zip_name
  addFile local_path_zip
  let _ ← download_wget env url local_path_zip
  let local_path_unzipped := pyJoin dir (base_filename ++ "_unzipped")
  addFolder local_path_unzipped
  emit (Cmd.extractAll local_path_zip local_path_unzipped)
  pure (pyJoin local_path_unzipped ext_name)

/-- `get_region_vect(num)` from lines 198-202. -/
def get_region_vect (env : Env) (num : Nat) : M String := do
  let region_vect := "tmp_region_vect_" ++ natStr num ++ "_" ++ natStr env.pid
  addVector region_vect
  emit (Cmd.vInRegion region_vect)
  pure region_vect

/-- `get_tiles(grid_vect, region_vect)` from lines 205-222: selects the
grid cells overlapping the region into a temporary vector, reads its
attribute table (`rows` is the key list of
`grass.parse_command("v.db.select", ...)`, header line first) and
returns the last pipe-separated column of every non-header row. -/
def get_tiles (env : Env) (grid_vect region_vect : String) (rows : List String) :
    M (List String) := do
  let selected_tmp := "selected_tiles_" ++ natStr env.pid
  addVector selected_tmp
  emit (Cmd.vSelect grid_vect region_vect selected_tmp)
  emit (Cmd.vDbSelect selected_tmp)
  pure ((rows.drop 1).map lastPipe)

def ghs_s2_grid_url : String :=
  "https://ghsl.jrc.ec.europa.eu/documents/GHS_BUILT_S2comp2018_GLOBE_R2020A_tile_schema.zip"

/-- `get_tiles_ghs_s2(dir)` from lines 225-241. -/
def get_tiles_ghs_s2 (env : Env) (dir : String) : M (List String) := do
  emit (Cmd.message "Downloading GHS-S2 tilegrid...")
  let localshp ← download_onefile env ghs_s2_grid_url dir "shp"
  let grid_tmp := "tmp_ghs_s2_grid_" ++ natStr env.pid
  addVector grid_tmp
  emit (Cmd.vImport localshp grid_tmp)
  let region_vect ← get_region_vect env 1
  get_tiles env grid_tmp region_vect env.s2_rows

/-- `get_actual_location()` from lines 187-195. -/
def get_actual_location (env : Env) : M (String × String) := do
  setGisdbase env.gisenvDbase
  setTgtgisrc env.gisrcInitial
  pure (env.gisenvLocation, env.gisenvMapset)

/-- `createTMPlocation(epsg)` from lines 156-184: writes a temporary
gisrc file (`SRCGISRC`), creates a temporary location (`TMPLOC`),
switches `GISRC` to it and fatals if the new location does not report
the requested EPSG code (outcome given by `env.tmplocEpsgOk`). -/
def createTMPlocation (env : Env) (epsg : Nat) : M Unit := do
  setSrcgisrc env.tempfilePath
  let tmploc := "temp_import_location_" ++ natStr env.pid
  setTmploc tmploc
  emit (Cmd.gProjCreateLoc tmploc epsg)
  emit (Cmd.setGisrc env.tempfilePath)
  if env.tmplocEpsgOk then pure () else fatal "Creation of temporary location failed!"

/-- `get_tiles_ghs_built(dir)` from lines 244-272 (the `dir` argument is
unused in the source as well): reprojects the region into a temporary
EPSG:3857 location, imports the embedded tile index there with
`v.in.geojson`, selects the overlapping tiles and switches back. -/
def get_tiles_ghs_built (env : Env) (dir : String) : M (List String) := do
  let tgt ← get_actual_location env
  let region_vect ← get_region_vect env 2
  createTMPlocation env 3857
  let index_vectmap := "tindex_vectmap_" ++ natStr env.pid
  emit (Cmd.vInGeojson index_vectmap)
  emit (Cmd.vProj tgt.1 tgt.2 region_vect region_vect)
  let tiles ← get_tiles env index_vectmap region_vect env.ghs_rows
  emit (Cmd.setGisrc env.gisrcInitial)
  pure tiles

def ghs_built_s1_url : String :=
  "https://jeodpp.jrc.ec.europa.eu/ftp/jrc-opendata/GHSL/GHS_BUILT_S1NODSM_GLOBE_R2018A/GHS_BUILT_S1NODSM_GLOBE_R2018A_3857_20/V1-0/GHS_BUILT_S1NODSM_GLOBE_R2018A_3857_20_V1_0.zip"

def ghs_s1_remaining_path : String :=
  "GHS_BUILT_S1NODSM_GLOBE_R2018A/GHS_BUILT_S1NODSM_GLOBE_R2018A_3857_20/V1-0/GHS_BUILT_S1NODSM_GLOBE_R2018A_3857_20_V1_0.vrt"

def ghs_built_base_url : String :=
  "https://jeodpp.jrc.ec.europa.eu/ftp/jrc-opendata/GHSL/GHS_BUILT_LDSMT_GLOBE_R2018A/GHS_BUILT_LDSMT_GLOBE_R2018A_3857_30/V2-0/tiles/"

/-- The local filename of the idx-th GHS-S2 tile download
(`"tmp_s2_tile_{}_{}.tif".format(os.getpid(), idx)`). -/
def s2_tile_filename (pid idx : Nat) : String :=
  "tmp_s2_tile_" ++ natStr pid ++ "_" ++ natStr idx ++ ".tif"

/-- The GHS-S2 download loop of `main` (lines 350-365): for each tile
URL, registers the local file, downloads it and accumulates both the
`downloaded_files` pairs `(local path, output name)` and the `s2_tiles`
path list, in download order. -/
def download_s2_tiles (env : Env) (dir outname : String) :
    List String → Nat → M (List (String × String) × List String)
  | [], _ => pure ([], [])
  | url :: rest, idx => do
    emit (Cmd.message ("Downloading " ++ natStr (idx + 1) ++
      " required tile of Sentinel-2 derived GHS built-up grid"))
    let local_filepath := pyJoin dir (s2_tile_filename env.pid idx)
    addFile local_filepath
    let _ ← download_wget env url local_filepath
    let p ← download_s2_tiles env dir outname rest (idx + 1)
    pure ((local_filepath, outname) :: p.1, local_filepath :: p.2)

/-- Remote URL of a GHS-BUILT tile. -/
def ghs_tile_url (tile : String) : String :=
  pyJoin ghs_built_base_url (tile ++ ".zip")

/-- The GHS-BUILT download loop of `main` (lines 367-386): for each tile
name, downloads `<base_url>/<tile>.zip` via `download_onefile` and
accumulates the `downloaded_files` pairs and the `ghs_tiles` path list,
in download order. -/
def download_ghs_tiles (env : Env) (dir outname : String) :
    List String → Nat → M (List (String × String) × List String)
  | [], _ => pure ([], [])
  | tile :: rest, idx => do
    emit (Cmd.message ("Downloading " ++ natStr (idx + 1) ++
      " required tile of Landsat derived GHS built-up grid"))
    let ghs_url := ghs_tile_url tile
    let ghs_built_path ← download_onefile env ghs_url dir "tif"
    let p ← download_ghs_tiles env dir outname rest (idx + 1)
    pure ((ghs_built_path, outname) :: p.1, ghs_built_path :: p.2)

/-- The intermediate raster name
`"tmp_ghs_raster_{}_{}".format(os.getpid(), idx + 1)`. -/
def tmp_raster_name (pid n : Nat) : String :=
  "tmp_ghs_raster_" ++ natStr pid ++ "_" ++ natStr n

/-- The import loop of `main` (lines 395-415): each downloaded file goes
into a uniquely indexed intermediate raster when its product needs a
mosaic (its path is in `s2_tiles` resp. `ghs_tiles` and the matching
patch flag is set), otherwise directly into the final output name.
Returns the accumulated `maps_to_patch_s2` and `maps_to_patch_built`. -/
def import_files (env : Env) (memory : Int) (flagr : Bool)
    (s2_tiles ghs_tiles : List String) (patch_s2 patch_built : Bool) :
    List (String × String) → Nat → List String → List String →
    M (List String × List String)
  | [], _, m2s, m2b => pure (m2s, m2b)
  | file :: rest, idx, m2s, m2b =>
    if file.1 ∈ s2_tiles ∧ patch_s2 = true then do
      let grassname := tmp_raster_name env.pid (idx + 1)
      addRaster grassname
      emit (Cmd.rImport file.1 grassname memory flagr)
      import_files env memory flagr s2_tiles ghs_tiles patch_s2 patch_built
        rest (idx + 1) (m2s ++ [grassname]) m2b
    else if file.1 ∈ ghs_tiles ∧ patch_built = true then do
      let grassname := tmp_raster_name env.pid (idx + 1)
      addRaster grassname
      emit (Cmd.rImport file.1 grassname memory flagr)
      import_files env memory flagr s2_tiles ghs_tiles patch_s2 patch_built
        rest (idx + 1) m2s (m2b ++ [grassname])
    else do
      emit (Cmd.rImport file.1 file.2 memory flagr)
      import_files env memory flagr s2_tiles ghs_tiles patch_s2 patch_built
        rest (idx + 1) m2s m2b

/-- Parsed command-line options; GRASS hands options to the script as
strings, an output that was not requested is the empty string. -/
structure Opts where
  ghs_built : String
  ghs_built_s1 : String
  ghs_built_s2 : String
  directory : String
  memory : Int
  deriving Repr, DecidableEq

namespace ghs

/-- `main()` from lines 299-430. -/
def main (opts : Opts) (flagr : Bool) (env : Env) : M Int := do
  let download_dir ←
    if opts.directory ≠ "" then do
      (if env.dirExists then pure () else emit (Cmd.makedirs opts.directory))
      pure opts.directory
    else do
      addFolder env.tempdirPath
      pure env.tempdirPath
  (if opts.ghs_built ≠ "" then
    (if env.vInGeojsonFound then pure ()
     else fatal "The v.in.geojson module was not found, install it first")
   else pure ())
  let df_s1 ←
    if opts.ghs_built_s1 ≠ "" then do
      emit (Cmd.message "Downloading GHS built-up grid derived from Sentinel-1 (GHS-BUILT-S1)")
      let ghs_built_s1_path_1 ← download_onefile env ghs_built_s1_url download_dir "tif"
      let unzipped_dir_ghs_s1 := pySplitHead ghs_built_s1_path_1 (pyBasename ghs_built_s1_path_1)
      let ghs_built_s1_path := pyJoin unzipped_dir_ghs_s1 ghs_s1_remaining_path
      pure [(ghs_built_s1_path, opts.ghs_built_s1)]
    else pure []
  let dfts2 ←
    if opts.ghs_built_s2 ≠ "" then do
      let s2_urls ← get_tiles_ghs_s2 env download_dir
      download_s2_tiles env download_dir opts.ghs_built_s2 s2_urls 0
    else pure ([], [])
  let dftghs ←
    if opts.ghs_built ≠ "" then do
      let ghs_built_tiles ← get_tiles_ghs_built env download_dir
      download_ghs_tiles env download_dir opts.ghs_built ghs_built_tiles 0
    else pure ([], [])
  let s2_tiles := dfts2.2
  let ghs_tiles := dftghs.2
  let downloaded_files := df_s1 ++ dfts2.1 ++ dftghs.1
  emit (Cmd.message "Importing...")
  let memory ← test_memory opts.memory env
  let patch_s2 : Bool := decide (1 < s2_tiles.length)
  let patch_built : Bool := decide (1 < ghs_tiles.length)
  let maps ← import_files env memory flagr s2_tiles ghs_tiles patch_s2 patch_built
    downloaded_files 0 [] []
  (if patch_s2 = true then emit (Cmd.rPatch maps.1 opts.ghs_built_s2) else pure ())
  (if patch_built = true then emit (Cmd.rPatch maps.2 opts.ghs_built) else pure ())
  pure 0

end ghs

/-- The `rm_vectors` loop of `cleanup()` (lines 100-102): each
registered vector that still exists is removed with `g.remove`; this
call is not wrapped in try/except, so a `g.remove` failure raises
(modelled as `fatal`) and skips the rest of the cleanup. -/
def removeVectors (env : Env) : List String → M Unit
  | [] => pure ()
  | v :: rest => do
    (if env.vectorExists v then do
      emit (Cmd.gRemoveVector v)
      (if env.gRemoveVectorFails v then
        fatal ("g.remove vector " ++ v ++ " failed") else pure ())
     else pure ())
    removeVectors env rest

/-- The `rm_rasters` loop of `cleanup()` (lines 103-105), same shape as
the vector loop: no try/except around `g.remove`. -/
def removeRasters (env : Env) : List String → M Unit
  | [] => pure ()
  | r :: rest => do
    (if env.rasterExists r then do
      emit (Cmd.gRemoveRaster r)
      (if env.gRemoveRasterFails r then
        fatal ("g.remove raster " ++ r ++ " failed") else pure ())
     else pure ())
    removeRasters env rest

/-- The `rm_files` loop of `cleanup()` (lines 106-110): `os.remove`
inside try/except, a failure only produces a warning. -/
def removeFiles (env : Env) : List String → M Unit
  | [] => pure ()
  | f :: rest => do
    emit (Cmd.osRemove f)
    (if env.osRemoveFails f then
      emit (Cmd.warning ("Cannot remove file <" ++ f ++ ">")) else pure ())
    removeFiles env rest

/-- The `rm_folders` loop of `cleanup()` (lines 111-116): `shutil.rmtree`
inside try/except, a failure only produces a warning; non-directories
are skipped silently. -/
def removeFolders (env : Env) : List String → M Unit
  | [] => pure ()
  | d :: rest => do
    (if env.isDirFolder d then do
      emit (Cmd.rmtree d)
      (if env.rmtreeFails d then
        emit (Cmd.warning ("Cannot remove dir <" ++ d ++ ">")) else pure ())
     else pure ())
    removeFolders env rest

/-- `cleanup()` from lines 89-116: switch back to the original GISRC,
best-effort-remove the temporary location and its gisrc pointer file,
then drain the four registries in order vectors, rasters, files,
folders. -/
def cleanup (env : Env) : M Unit := do
  emit (Cmd.message "Cleaning up...")
  let st ← getS
  (match st.tgtgisrc with
   | some t => emit (Cmd.setGisrc t)
   | none => pure ())
  (match st.gisdbase, st.tmploc with
   | some g, some loc => emit (Cmd.tryRmdir (pyJoin g loc))
   | _, _ => pure ())
  (match st.srcgisrc with
   | some f => emit (Cmd.tryRemove f)
   | none => pure ())
  removeVectors env st.rm_vectors
  removeRasters env st.rm_rasters
  removeFiles env st.rm_files
  removeFolders env st.rm_folders

/-- The `__main__` block (lines 433-436): `atexit.register(cleanup)`
followed by `sys.exit(main())`.  Both on normal return and on a
`grass.fatal` abort the process exits and the atexit hook runs
`cleanup` exactly once on the state main left behind. -/
def program (opts : Opts) (flagr : Bool) (env : Env) (s0 : S) :
    Except String Int × S :=
  let r1 := M.run (ghs.main opts flagr env) s0
  let r2 := M.run (cleanup env) r1.2
  (r1.1, r2.2)


/-- Number of trace entries satisfying a predicate. -/
def countP (p : Cmd → Bool) (t : List Cmd) : Nat := (t.filter p).length

def isDownloadCmd : Cmd → Bool
  | Cmd.wgetDownload _ _ => true
  | _ => false

def isPatchCmd : Cmd → Bool
  | Cmd.rPatch _ _ => true
  | _ => false

def isImportCmd : Cmd → Bool
  | Cmd.rImport _ _ _ _ => true
  | _ => false

def isOsRemoveCmd : Cmd → Bool
  | Cmd.osRemove _ => true
  | _ => false

/-- The output rasters of the `r.import` calls of a trace, in order. -/
def importOutputs (t : List Cmd) : List String :=
  t.filterMap (fun c => match c with
    | Cmd.rImport _ o _ _ => some o
    | _ => none)

/-- The tile URLs a run extracts from the v.db.select rows. -/
def tilesOf (rows : List String) : List String := (rows.drop 1).map lastPipe

/-- Local paths of the GHS-S2 tile downloads, one per URL, indexed from
`idx`. -/
def s2_local_paths (dir : String) (pid : Nat) : Nat → List String → List String
  | _, [] => []
  | idx, _ :: rest => pyJoin dir (s2_tile_filename pid idx) :: s2_local_paths dir pid (idx + 1) rest

/-- Trace of the GHS-S2 download loop. -/
def s2_dl_trace (env : Env) (dir : String) : Nat → List String → List Cmd
  | _, [] => []
  | idx, url :: rest =>
    Cmd.message ("Downloading " ++ natStr (idx + 1) ++
      " required tile of Sentinel-2 derived GHS built-up grid") ::
    Cmd.wgetDownload url (pyJoin dir (s2_tile_filename env.pid idx)) ::
    s2_dl_trace env dir (idx + 1) rest

/-- Local path of the downloaded zip for `download_onefile url dir`. -/
def onefile_zip (url dir : String) : String :=
  pyJoin dir (pyBasename (urlPath url))

/-- Base filename (without extension) for `download_onefile url`. -/
def onefile_base (url : String) : String :=
  pySplitextRoot (pyBasename (urlPath url))

/-- Unzip folder for `download_onefile url dir`. -/
def onefile_unz (url dir : String) : String :=
  pyJoin dir (onefile_base url ++ "_unzipped")

/-- Conventional payload path returned by `download_onefile url dir fmt`. -/
def onefile_payload (url dir fmt : String) : String :=
  pyJoin (onefile_unz url dir) (onefile_base url ++ "." ++ fmt)

/-- Trace of the GHS-S2 tile-grid locator (`get_tiles_ghs_s2`). -/
def s2_locator_trace (env : Env) (dir : String) : List Cmd :=
  [Cmd.message "Downloading GHS-S2 tilegrid...",
   Cmd.wgetDownload ghs_s2_grid_url (onefile_zip ghs_s2_grid_url dir),
   Cmd.extractAll (onefile_zip ghs_s2_grid_url dir) (onefile_unz ghs_s2_grid_url dir),
   Cmd.vImport (onefile_payload ghs_s2_grid_url dir "shp") ("tmp_ghs_s2_grid_" ++ natStr env.pid),
   Cmd.vInRegion ("tmp_region_vect_" ++ natStr 1 ++ "_" ++ natStr env.pid),
   Cmd.vSelect ("tmp_ghs_s2_grid_" ++ natStr env.pid) ("tmp_region_vect_" ++ natStr 1 ++ "_" ++ natStr env.pid)
     ("selected_tiles_" ++ natStr env.pid),
   Cmd.vDbSelect ("selected_tiles_" ++ natStr env.pid)]

/-- Vectors registered by the GHS-S2 locator. -/
def s2_locator_vects (env : Env) : List String :=
  ["tmp_ghs_s2_grid_" ++ natStr env.pid,
   "tmp_region_vect_" ++ natStr 1 ++ "_" ++ natStr env.pid,
   "selected_tiles_" ++ natStr env.pid]

/-- Trace of the GHS-BUILT tile-index locator (`get_tiles_ghs_built`). -/
def ghs_locator_trace (env : Env) : List Cmd :=
  [Cmd.vInRegion ("tmp_region_vect_" ++ natStr 2 ++ "_" ++ natStr env.pid),
   Cmd.gProjCreateLoc ("temp_import_location_" ++ natStr env.pid) 3857,
   Cmd.setGisrc env.tempfilePath,
   Cmd.vInGeojson ("tindex_vectmap_" ++ natStr env.pid),
   Cmd.vProj env.gisenvLocation env.gisenvMapset ("tmp_region_vect_" ++ natStr 2 ++ "_" ++ natStr env.pid)
     ("tmp_region_vect_" ++ natStr 2 ++ "_" ++ natStr env.pid),
   Cmd.vSelect ("tindex_vectmap_" ++ natStr env.pid) ("tmp_region_vect_" ++ natStr 2 ++ "_" ++ natStr env.pid)
     ("selected_tiles_" ++ natStr env.pid),
   Cmd.vDbSelect ("selected_tiles_" ++ natStr env.pid),
   Cmd.setGisrc env.gisrcInitial]

/-- Vectors registered by the GHS-BUILT locator. -/
def ghs_locator_vects (env : Env) : List String :=
  ["tmp_region_vect_" ++ natStr 2 ++ "_" ++ natStr env.pid,
   "selected_tiles_" ++ natStr env.pid]

/-- Trace of the GHS-BUILT download loop. -/
def ghs_dl_trace (env : Env) (dir : String) : Nat → List String → List Cmd
  | _, [] => []
  | idx, tile :: rest =>
    Cmd.message ("Downloading " ++ natStr (idx + 1) ++
      " required tile of Landsat derived GHS built-up grid") ::
    Cmd.wgetDownload (ghs_tile_url tile) (onefile_zip (ghs_tile_url tile) dir) ::
    Cmd.extractAll (onefile_zip (ghs_tile_url tile) dir) (onefile_unz (ghs_tile_url tile) dir) ::
    ghs_dl_trace env dir (idx + 1) rest

/-- The two warning messages `test_memory` issues when clamping. -/
def mem_clamp_warnings (memory fr : Int) : List Cmd :=
  [Cmd.warning ("Using " ++ toString memory ++ " MB but only " ++
     toString fr ++ " MB RAM available."),
   Cmd.warning ("Set used memory to " ++ toString fr ++ " MB.")]

/-- `count` consecutive intermediate raster names starting at creation
index `idx` (so the first is `tmp_ghs_raster_<pid>_<idx+1>`). -/
def raster_names (pid : Nat) : Nat → Nat → List String
  | _, 0 => []
  | idx, n + 1 => tmp_raster_name pid (idx + 1) :: raster_names pid (idx + 1) n

/-- Import-loop trace when every file goes to an intermediate raster. -/
def patch_import_trace (pid : Nat) (mem : Int) (flagr : Bool) :
    Nat → List (String × String) → List Cmd
  | _, [] => []
  | idx, f :: rest =>
    Cmd.rImport f.1 (tmp_raster_name pid (idx + 1)) mem flagr ::
    patch_import_trace pid mem flagr (idx + 1) rest

/-- The conventional path `download_onefile` returns for the GHS-S1
archive, and the `.vrt` path `main` derives from it. -/
def s1_conv_path (dir : String) : String :=
  onefile_payload ghs_built_s1_url dir "tif"

def s1_vrt_path (dir : String) : String :=
  pyJoin (pySplitHead (s1_conv_path dir) (pyBasename (s1_conv_path dir))) ghs_s1_remaining_path

/-- Removal attempts (plus failure warnings) of the `rm_vectors` cleanup
loop, assuming no `g.remove` failure. -/
def vect_clean_trace (env : Env) : List String → List Cmd
  | [] => []
  | v :: rest =>
    (if env.vectorExists v then [Cmd.gRemoveVector v] else []) ++ vect_clean_trace env rest

/-- Removal attempts of the `rm_rasters` cleanup loop, assuming no
`g.remove` failure. -/
def rast_clean_trace (env : Env) : List String → List Cmd
  | [] => []
  | r :: rest =>
    (if env.rasterExists r then [Cmd.gRemoveRaster r] else []) ++ rast_clean_trace env rest

/-- Removal attempts plus failure warnings of the `rm_files` cleanup
loop. -/
def file_clean_trace (env : Env) : List String → List Cmd
  | [] => []
  | f :: rest =>
    Cmd.osRemove f ::
    ((if env.osRemoveFails f then [Cmd.warning ("Cannot remove file <" ++ f ++ ">")] else []) ++
     file_clean_trace env rest)

/-- Removal attempts plus failure warnings of the `rm_folders` cleanup
loop. -/
def folder_clean_trace (env : Env) : List String → List Cmd
  | [] => []
  | d :: rest =>
    (if env.isDirFolder d then
      Cmd.rmtree d ::
      (if env.rmtreeFails d then [Cmd.warning ("Cannot remove dir <" ++ d ++ ">")] else [])
     else []) ++ folder_clean_trace env rest

/-- The whole cleanup trace (valid when no dataset removal fails). -/
def cleanup_trace (env : Env) (s : S) : List Cmd :=
  Cmd.message "Cleaning up..." ::
  ((match s.tgtgisrc with
    | some t => [Cmd.setGisrc t]
    | none => []) ++
   (match s.gisdbase, s.tmploc with
    | some g, some loc => [Cmd.tryRmdir (pyJoin g loc)]
    | _, _ => []) ++
   (match s.srcgisrc with
    | some f => [Cmd.tryRemove f]
    | none => []) ++
   vect_clean_trace env s.rm_vectors ++
   rast_clean_trace env s.rm_rasters ++
   file_clean_trace env s.rm_files ++
   folder_clean_trace env s.rm_folders)

/-- The all-empty initial state of a fresh process. -/
def S0 : S := ⟨[], [], [], [], none, none, none, none, []⟩

/-- A concrete benign environment used to instantiate theorems with
hypotheses: all downloads succeed, all removals succeed, every dataset
exists, two tiles in each tile index. -/
def envW : Env :=
  { pid := 7, tempdirPath := "/tmp/wd", tempfilePath := "/tmp/srcrc",
    dirExists := true, vInGeojsonFound := true,
    memAvailable := 3 * 2 ^ 30, swapFree := 0,
    downloadFails := fun _ => false,
    s2_rows := ["head", "1|http://h/t1.tif", "2|http://h/t2.tif"],
    ghs_rows := ["head", "1|TILE_3_9", "2|TILE_3_10"],
    gisenvLocation := "loc", gisenvMapset := "PERMANENT", gisenvDbase := "/gdb",
    gisrcInitial := "/rc0", tmplocEpsgOk := true,
    vectorExists := fun _ => true, rasterExists := fun _ => true,
    gRemoveVectorFails := fun _ => false, gRemoveRasterFails := fun _ => false,
    osRemoveFails := fun _ => false, isDirFolder := fun _ => true,
    rmtreeFails := fun _ => false }

/-- Like `envW` but the GHS-S2 tile index yields a single tile. -/
def env1 : Env := { envW with s2_rows := ["head", "1|http://h/t1.tif"] }

/-- Like `envW` but the GHS-S2 tile index yields zero tiles. -/
def envZ : Env := { envW with s2_rows := ["head"] }

/-- Like `envW` but the first GHS-S2 tile download fails. -/
def envF : Env := { envW with downloadFails := fun u => u == "http://h/t1.tif" }

/-- Like `envW` but `v.in.geojson` is not installed. -/
def envNoGeo : Env := { envW with vInGeojsonFound := false }

/-- An environment in which removing the raster "r1" fails (and the
file-removal of "f1" fails too). -/
def envC7 : Env :=
  { envW with gRemoveRasterFails := fun r => r == "r1",
              osRemoveFails := fun f => f == "f1" }

/-- A state with one registered raster (whose removal fails under
`envC7`) followed by one registered file. -/
def sC7 : S := { S0 with rm_rasters := ["r1"], rm_files := ["f1"] }

/-- A concrete state with one entry in every registry and all four
location globals set, used to instantiate cleanup theorems. -/
def sClean : S :=
  { S0 with rm_files := ["f1"], rm_folders := ["d1"], rm_rasters := ["r2"],
            rm_vectors := ["v1"], tmploc := some "L", srcgisrc := some "SR",
            tgtgisrc := some "T", gisdbase := some "G" }

-- THEOREMS START HERE

@[simp] theorem M.run_pure (a : α) (s : S) :
    M.run (pure a : M α) s = (Except.ok a, s) := rfl

@[simp] theorem M.run_bind (m : M α) (f : α → M β) (s : S) :
    M.run (M.bind m f) s =
      match M.run m s with
      | (Except.ok a, s1) => M.run (f a) s1
      | (Except.error e, s1) => (Except.error e, s1) := by
  show M.bind m f s = _
  unfold M.bind
  rfl

@[simp] theorem pure_eq_M_pure {α : Type} : (Pure.pure : α → M α) = M.pure := rfl

@[simp] theorem bind_eq_M_bind {α β : Type} (m : M α) (f : α → M β) :
    m >>= f = M.bind m f := rfl

@[simp] theorem M.run_emit (c : Cmd) (s : S) :
    M.run (emit c) s = (Except.ok (), { s with trace := s.trace ++ [c] }) := rfl

@[simp] theorem M.run_fatal (msg : String) (s : S) :
    M.run (fatal msg : M α) s = (Except.error msg, s) := rfl

@[simp] theorem M.run_addFile (f : String) (s : S) :
    M.run (addFile f) s = (Except.ok (), { s with rm_files := s.rm_files ++ [f] }) := rfl

@[simp] theorem M.run_addFolder (d : String) (s : S) :
    M.run (addFolder d) s = (Except.ok (), { s with rm_folders := s.rm_folders ++ [d] }) := rfl

@[simp] theorem M.run_addRaster (r : String) (s : S) :
    M.run (addRaster r) s = (Except.ok (), { s with rm_rasters := s.rm_rasters ++ [r] }) := rfl

@[simp] theorem M.run_addVector (v : String) (s : S) :
    M.run (addVector v) s = (Except.ok (), { s with rm_vectors := s.rm_vectors ++ [v] }) := rfl

@[simp] theorem M.run_setTmploc (x : String) (s : S) :
    M.run (setTmploc x) s = (Except.ok (), { s with tmploc := some x }) := rfl

@[simp] theorem M.run_setSrcgisrc (x : String) (s : S) :
    M.run (setSrcgisrc x) s = (Except.ok (), { s with srcgisrc := some x }) := rfl

@[simp] theorem M.run_setTgtgisrc (x : String) (s : S) :
    M.run (setTgtgisrc x) s = (Except.ok (), { s with tgtgisrc := some x }) := rfl

@[simp] theorem M.run_setGisdbase (x : String) (s : S) :
    M.run (setGisdbase x) s = (Except.ok (), { s with gisdbase := some x }) := rfl

@[simp] theorem M.run_getS (s : S) : M.run getS s = (Except.ok s, s) := rfl

theorem toNat_sub_48_digitChar : ∀ d < 10, (Char.ofNat (48 + d)).toNat - 48 = d := by
  decide

theorem map_digitChar_inj {l1 l2 : List Nat}
    (h1 : ∀ d ∈ l1, d < 10) (h2 : ∀ d ∈ l2, d < 10)
    (h : l1.map (fun d => Char.ofNat (48 + d)) = l2.map (fun d => Char.ofNat (48 + d))) :
    l1 = l2 := by
  have h' := congrArg (List.map (fun c : Char => c.toNat - 48)) h
  rw [List.map_map, List.map_map] at h'
  have e1 : l1.map ((fun c : Char => c.toNat - 48) ∘ fun d => Char.ofNat (48 + d)) = l1.map id :=
    List.map_congr_left (fun d hd => toNat_sub_48_digitChar d (h1 d hd))
  have e2 : l2.map ((fun c : Char => c.toNat - 48) ∘ fun d => Char.ofNat (48 + d)) = l2.map id :=
    List.map_congr_left (fun d hd => toNat_sub_48_digitChar d (h2 d hd))
  rw [e1, e2, List.map_id, List.map_id] at h'
  exact h'

theorem digits_rev_inj {a b : Nat}
    (h : (Nat.digits 10 a).reverse.map (fun d => Char.ofNat (48 + d)) =
         (Nat.digits 10 b).reverse.map (fun d => Char.ofNat (48 + d))) : a = b := by
  have hrev : (Nat.digits 10 a).reverse = (Nat.digits 10 b).reverse :=
    map_digitChar_inj
      (fun d hd => Nat.digits_lt_base (by norm_num) (List.mem_reverse.mp hd))
      (fun d hd => Nat.digits_lt_base (by norm_num) (List.mem_reverse.mp hd)) h
  have hdig : Nat.digits 10 a = Nat.digits 10 b := List.reverse_injective hrev
  calc a = Nat.ofDigits 10 (Nat.digits 10 a) := (Nat.ofDigits_digits 10 a).symm
    _ = Nat.ofDigits 10 (Nat.digits 10 b) := by rw [hdig]
    _ = b := Nat.ofDigits_digits 10 b

theorem natStrAux_eq_digits (fuel n : Nat) (h : n ≤ fuel) :
    natStrAux fuel n = (Nat.digits 10 n).reverse.map (fun d => Char.ofNat (48 + d)) := by
  induction fuel generalizing n with
  | zero =>
    interval_cases n
    simp [natStrAux]
  | succ f ih =>
    cases n with
    | zero => simp [natStrAux]
    | succ m =>
      have hdiv : (m + 1) / 10 < m + 1 := Nat.div_lt_self (Nat.succ_pos m) (by norm_num)
      rw [natStrAux, ih ((m + 1) / 10) (by omega),
        Nat.digits_def' (by norm_num : 1 < 10) (Nat.succ_pos m)]
      simp

/-- Decimal rendering of naturals is injective. -/
theorem natStr_injective : Function.Injective natStr := by
  intro a b h
  unfold natStr at h
  rw [natStrAux_eq_digits a a le_rfl, natStrAux_eq_digits b b le_rfl] at h
  by_cases ha : a = 0 <;> by_cases hb : b = 0
  · rw [ha, hb]
  · exfalso
    rw [if_pos ha, if_neg hb] at h
    have hd := congrArg String.data h
    have hd' : ['0'] = (Nat.digits 10 b).reverse.map (fun d => Char.ofNat (48 + d)) := hd
    have h1 : ([0] : List Nat).map (fun d => Char.ofNat (48 + d)) =
        (Nat.digits 10 b).reverse.map (fun d => Char.ofNat (48 + d)) := hd'
    have h2 : ([0] : List Nat) = (Nat.digits 10 b).reverse :=
      map_digitChar_inj (by simp)
        (fun d hd => Nat.digits_lt_base (by norm_num) (List.mem_reverse.mp hd)) h1
    have h3 : Nat.digits 10 b = [0] := by
      have := congrArg List.reverse h2
      simpa using this.symm
    have : b = 0 := by
      have h4 := Nat.ofDigits_digits 10 b
      rw [h3] at h4
      simpa [Nat.ofDigits_singleton] using h4.symm
    exact hb this
  · exfalso
    rw [if_neg ha, if_pos hb] at h
    have hd := congrArg String.data h
    have h1 : (Nat.digits 10 a).reverse.map (fun d => Char.ofNat (48 + d)) =
        ([0] : List Nat).map (fun d => Char.ofNat (48 + d)) := hd
    have h2 : (Nat.digits 10 a).reverse = ([0] : List Nat) :=
      map_digitChar_inj
        (fun d hd => Nat.digits_lt_base (by norm_num) (List.mem_reverse.mp hd)) (by simp) h1
    have h3 : Nat.digits 10 a = [0] := by
      have := congrArg List.reverse h2
      simpa using this
    have : a = 0 := by
      have h4 := Nat.ofDigits_digits 10 a
      rw [h3] at h4
      simpa [Nat.ofDigits_singleton] using h4.symm
    exact ha this
  · rw [if_neg ha, if_neg hb] at h
    exact digits_rev_inj (congrArg String.data h)

theorem string_append_left_cancel {p a b : String} (h : p ++ a = p ++ b) : a = b := by
  have hd := congrArg String.data h
  rw [String.data_append, String.data_append] at hd
  have hc := List.append_cancel_left hd
  exact congrArg String.mk hc

/-- Distinct creation indices give distinct intermediate raster names. -/
theorem tmp_raster_name_inj (pid : Nat) {m n : Nat}
    (h : tmp_raster_name pid m = tmp_raster_name pid n) : m = n := by
  unfold tmp_raster_name at h
  have hd := congrArg String.data h
  simp only [String.data_append, List.append_assoc] at hd
  have h1 := List.append_cancel_left hd
  have h2 := List.append_cancel_left h1
  have h3 := List.append_cancel_left h2
  exact natStr_injective (congrArg String.mk h3)

theorem raster_names_length (pid idx n : Nat) : (raster_names pid idx n).length = n := by
  induction n generalizing idx with
  | zero => rfl
  | succ k ih => simp [raster_names, ih]

theorem mem_raster_names {pid idx n : Nat} {s : String} (h : s ∈ raster_names pid idx n) :
    ∃ j, idx < j ∧ s = tmp_raster_name pid j := by
  induction n generalizing idx with
  | zero => simp [raster_names] at h
  | succ k ih =>
    rw [raster_names] at h
    rcases List.mem_cons.mp h with h1 | h1
    · exact ⟨idx + 1, Nat.lt_succ_self idx, h1⟩
    · rcases ih h1 with ⟨j, hj, he⟩
      exact ⟨j, Nat.lt_of_succ_lt hj, he⟩

/-- The intermediate raster names generated by the import loop are
pairwise distinct. -/
theorem raster_names_nodup (pid idx n : Nat) : (raster_names pid idx n).Nodup := by
  induction n generalizing idx with
  | zero => simp [raster_names]
  | succ k ih =>
    rw [raster_names]
    refine List.nodup_cons.mpr ⟨?_, ih (idx + 1)⟩
    intro hmem
    rcases mem_raster_names hmem with ⟨j, hj, he⟩
    have : j = idx + 1 := (tmp_raster_name_inj pid he.symm)
    omega

theorem countP_append (p : Cmd → Bool) (t1 t2 : List Cmd) :
    countP p (t1 ++ t2) = countP p t1 + countP p t2 := by
  simp [countP, List.filter_append]

theorem importOutputs_append (t1 t2 : List Cmd) :
    importOutputs (t1 ++ t2) = importOutputs t1 ++ importOutputs t2 := by
  simp [importOutputs]

theorem freeRAM_MB (percent memA swapF : Nat) :
    freeRAM "MB" percent memA swapF =
      Except.ok (round ((((memA : ℚ) + (swapF : ℚ)) / 1024 ^ 2) * percent / 100)) := by
  simp [freeRAM]

/-- `test_memory` never aborts: it returns the minimum of the request
and the available MB, with the two clamp warnings exactly when the
request exceeds availability. -/
theorem test_memory_run (m : Int) (env : Env) (s : S) :
    M.run (test_memory m env) s =
      (Except.ok (min m (free_ram_mb env)),
       { s with trace := s.trace ++
          (if free_ram_mb env < m then mem_clamp_warnings m (free_ram_mb env) else []) }) := by
  have hfr : freeRAM "MB" 100 env.memAvailable env.swapFree = Except.ok (free_ram_mb env) := by
    rw [freeRAM_MB]
    unfold free_ram_mb
    norm_num
  unfold test_memory
  rw [hfr]
  by_cases h : free_ram_mb env < m
  · rw [if_pos h]
    have hmin : min m (free_ram_mb env) = free_ram_mb env := min_eq_right h.le
    simp [M.run, M.bind, Bind.bind, emit, M.pure, Pure.pure, hmin, h, mem_clamp_warnings]
  · rw [if_neg h]
    have hmin : min m (free_ram_mb env) = m := min_eq_left (le_of_not_lt h)
    simp [M.run, M.pure, Pure.pure, hmin, h]

theorem download_wget_ok (env : Env) (url p : String) (s : S)
    (h : env.downloadFails url = false) :
    M.run (download_wget env url p) s =
      (Except.ok 0, { s with trace := s.trace ++ [Cmd.wgetDownload url p] }) := by
  simp [download_wget, h]

theorem download_wget_fail (env : Env) (url p : String) (s : S)
    (h : env.downloadFails url = true) :
    M.run (download_wget env url p) s =
      (Except.error ("There was a problem downloading " ++ url),
       { s with trace := s.trace ++ [Cmd.wgetDownload url p] }) := by
  simp [download_wget, h]

theorem download_onefile_run (env : Env) (url dir fmt : String) (s : S)
    (h : env.downloadFails url = false) :
    M.run (download_onefile env url dir fmt) s =
      (Except.ok (onefile_payload url dir fmt),
       { s with rm_files := s.rm_files ++ [onefile_zip url dir],
                rm_folders := s.rm_folders ++ [onefile_unz url dir],
                trace := s.trace ++
                  [Cmd.wgetDownload url (onefile_zip url dir),
                   Cmd.extractAll (onefile_zip url dir) (onefile_unz url dir)] }) := by
  simp [download_onefile, download_wget, h, onefile_payload, onefile_zip, onefile_unz,
    onefile_base, List.append_assoc]

theorem download_onefile_fail (env : Env) (url dir fmt : String) (s : S)
    (h : env.downloadFails url = true) :
    M.run (download_onefile env url dir fmt) s =
      (Except.error ("There was a problem downloading " ++ url),
       { s with rm_files := s.rm_files ++ [onefile_zip url dir],
                trace := s.trace ++ [Cmd.wgetDownload url (onefile_zip url dir)] }) := by
  simp [download_onefile, download_wget, h, onefile_zip, onefile_base, List.append_assoc]

theorem get_region_vect_run (env : Env) (num : Nat) (s : S) :
    M.run (get_region_vect env num) s =
      (Except.ok ("tmp_region_vect_" ++ natStr num ++ "_" ++ natStr env.pid),
       { s with rm_vectors := s.rm_vectors ++
                  ["tmp_region_vect_" ++ natStr num ++ "_" ++ natStr env.pid],
                trace := s.trace ++
                  [Cmd.vInRegion ("tmp_region_vect_" ++ natStr num ++ "_" ++ natStr env.pid)] }) := by
  simp [get_region_vect]

theorem get_tiles_run (env : Env) (gv rv : String) (rows : List String) (s : S) :
    M.run (get_tiles env gv rv rows) s =
      (Except.ok (tilesOf rows),
       { s with rm_vectors := s.rm_vectors ++ ["selected_tiles_" ++ natStr env.pid],
                trace := s.trace ++
                  [Cmd.vSelect gv rv ("selected_tiles_" ++ natStr env.pid),
                   Cmd.vDbSelect ("selected_tiles_" ++ natStr env.pid)] }) := by
  simp [get_tiles, tilesOf, List.append_assoc]

theorem get_tiles_ghs_s2_run (env : Env) (dir : String) (s : S)
    (h : env.downloadFails ghs_s2_grid_url = false) :
    M.run (get_tiles_ghs_s2 env dir) s =
      (Except.ok (tilesOf env.s2_rows),
       { s with rm_files := s.rm_files ++ [onefile_zip ghs_s2_grid_url dir],
                rm_folders := s.rm_folders ++ [onefile_unz ghs_s2_grid_url dir],
                rm_vectors := s.rm_vectors ++ s2_locator_vects env,
                trace := s.trace ++ s2_locator_trace env dir }) := by
  simp only [get_tiles_ghs_s2, bind_eq_M_bind, M.run_bind, M.run_emit,
    download_onefile_run env ghs_s2_grid_url dir "shp", h,
    M.run_addVector, get_region_vect_run, get_tiles_run]
  simp [s2_locator_vects, s2_locator_trace, List.append_assoc]

theorem get_actual_location_run (env : Env) (s : S) :
    M.run (get_actual_location env) s =
      (Except.ok (env.gisenvLocation, env.gisenvMapset),
       { s with gisdbase := some env.gisenvDbase, tgtgisrc := some env.gisrcInitial }) := by
  simp [get_actual_location]

theorem createTMPlocation_run_ok (env : Env) (epsg : Nat) (s : S)
    (h : env.tmplocEpsgOk = true) :
    M.run (createTMPlocation env epsg) s =
      (Except.ok (),
       { s with srcgisrc := some env.tempfilePath,
                tmploc := some ("temp_import_location_" ++ natStr env.pid),
                trace := s.trace ++
                  [Cmd.gProjCreateLoc ("temp_import_location_" ++ natStr env.pid) epsg,
                   Cmd.setGisrc env.tempfilePath] }) := by
  simp [createTMPlocation, h, List.append_assoc]

theorem get_tiles_ghs_built_run (env : Env) (dir : String) (s : S)
    (h : env.tmplocEpsgOk = true) :
    M.run (get_tiles_ghs_built env dir) s =
      (Except.ok (tilesOf env.ghs_rows),
       { s with gisdbase := some env.gisenvDbase,
                tgtgisrc := some env.gisrcInitial,
                srcgisrc := some env.tempfilePath,
                tmploc := some ("temp_import_location_" ++ natStr env.pid),
                rm_vectors := s.rm_vectors ++ ghs_locator_vects env,
                trace := s.trace ++ ghs_locator_trace env }) := by
  simp only [get_tiles_ghs_built, bind_eq_M_bind, M.run_bind, M.run_emit,
    get_actual_location_run, get_region_vect_run, get_tiles_run, M.run_pure,
    createTMPlocation_run_ok env 3857, h]
  simp [ghs_locator_vects, ghs_locator_trace, List.append_assoc]

theorem download_s2_tiles_run (env : Env) (dir outname : String) (urls : List String)
    (idx : Nat) (s : S) (h : ∀ u ∈ urls, env.downloadFails u = false) :
    M.run (download_s2_tiles env dir outname urls idx) s =
      (Except.ok ((s2_local_paths dir env.pid idx urls).map (fun p => (p, outname)),
                  s2_local_paths dir env.pid idx urls),
       { s with rm_files := s.rm_files ++ s2_local_paths dir env.pid idx urls,
                trace := s.trace ++ s2_dl_trace env dir idx urls }) := by
  induction urls generalizing idx s with
  | nil => simp [download_s2_tiles, s2_local_paths, s2_dl_trace]
  | cons u rest ih =>
    have hu : env.downloadFails u = false := h u (List.mem_cons_self u rest)
    have hrest : ∀ v ∈ rest, env.downloadFails v = false :=
      fun v hv => h v (List.mem_cons_of_mem u hv)
    simp only [download_s2_tiles, bind_eq_M_bind, M.run_bind, M.run_emit, M.run_addFile,
      download_wget_ok env u _ _ hu, ih _ _ hrest, M.run_pure,
      s2_local_paths, s2_dl_trace]
    simp [List.append_assoc]

theorem download_ghs_tiles_run (env : Env) (dir outname : String) (tiles : List String)
    (idx : Nat) (s : S) (h : ∀ t ∈ tiles, env.downloadFails (ghs_tile_url t) = false) :
    M.run (download_ghs_tiles env dir outname tiles idx) s =
      (Except.ok ((tiles.map (fun t => onefile_payload (ghs_tile_url t) dir "tif")).map
                    (fun p => (p, outname)),
                  tiles.map (fun t => onefile_payload (ghs_tile_url t) dir "tif")),
       { s with
          rm_files := s.rm_files ++ tiles.map (fun t => onefile_zip (ghs_tile_url t) dir),
          rm_folders := s.rm_folders ++ tiles.map (fun t => onefile_unz (ghs_tile_url t) dir),
          trace := s.trace ++ ghs_dl_trace env dir idx tiles }) := by
  induction tiles generalizing idx s with
  | nil => simp [download_ghs_tiles, ghs_dl_trace]
  | cons t rest ih =>
    have ht : env.downloadFails (ghs_tile_url t) = false := h t (List.mem_cons_self t rest)
    have hrest : ∀ v ∈ rest, env.downloadFails (ghs_tile_url v) = false :=
      fun v hv => h v (List.mem_cons_of_mem t hv)
    simp only [download_ghs_tiles, bind_eq_M_bind, M.run_bind, M.run_emit,
      download_onefile_run env (ghs_tile_url t) dir "tif", ht, ih _ _ hrest, M.run_pure,
      ghs_dl_trace]
    simp [List.append_assoc]

/-- When neither patch flag is set, every downloaded file is imported
directly into its final output name and no intermediate raster is
created or registered. -/
theorem import_files_nopatch_run (env : Env) (mem : Int) (flagr : Bool)
    (s2T ghsT : List String) (files : List (String × String)) (idx : Nat)
    (m2s m2b : List String) (s : S) :
    M.run (import_files env mem flagr s2T ghsT false false files idx m2s m2b) s =
      (Except.ok (m2s, m2b),
       { s with trace := s.trace ++ files.map (fun f => Cmd.rImport f.1 f.2 mem flagr) }) := by
  induction files generalizing idx s with
  | nil => simp [import_files]
  | cons f rest ih =>
    simp only [import_files, Bool.false_eq_true, and_false, if_false, bind_eq_M_bind,
      M.run_bind, M.run_emit, ih]
    simp [List.append_assoc]

/-- When the s2 patch flag is set and every file belongs to the s2 tile
list, every file is imported into a fresh indexed intermediate raster,
which is registered and accumulated in `maps_to_patch_s2` in order. -/
theorem import_files_all_s2_run (env : Env) (mem : Int) (flagr : Bool)
    (s2T ghsT : List String) (pb : Bool) (files : List (String × String)) (idx : Nat)
    (m2s m2b : List String) (s : S) (hall : ∀ f ∈ files, f.1 ∈ s2T) :
    M.run (import_files env mem flagr s2T ghsT true pb files idx m2s m2b) s =
      (Except.ok (m2s ++ raster_names env.pid idx files.length, m2b),
       { s with rm_rasters := s.rm_rasters ++ raster_names env.pid idx files.length,
                trace := s.trace ++ patch_import_trace env.pid mem flagr idx files }) := by
  induction files generalizing idx m2s s with
  | nil => simp [import_files, raster_names, patch_import_trace]
  | cons f rest ih =>
    have hf : f.1 ∈ s2T := hall f (List.mem_cons_self f rest)
    have hrest : ∀ g ∈ rest, g.1 ∈ s2T := fun g hg => hall g (List.mem_cons_of_mem f hg)
    rw [import_files, if_pos ⟨hf, rfl⟩]
    simp only [bind_eq_M_bind, M.run_bind, M.run_addRaster, M.run_emit, ih _ _ _ hrest,
      raster_names, patch_import_trace]
    simp [List.append_assoc, raster_names_length]

/-- Mirror image for the GHS-BUILT product: files in the ghs tile list
(and not in the s2 tile list) go to indexed intermediates accumulated in
`maps_to_patch_built`. -/
theorem import_files_all_ghs_run (env : Env) (mem : Int) (flagr : Bool)
    (s2T ghsT : List String) (ps : Bool) (files : List (String × String)) (idx : Nat)
    (m2s m2b : List String) (s : S) (hall : ∀ f ∈ files, f.1 ∈ ghsT)
    (hnot : ∀ f ∈ files, ¬(f.1 ∈ s2T ∧ ps = true)) :
    M.run (import_files env mem flagr s2T ghsT ps true files idx m2s m2b) s =
      (Except.ok (m2s, m2b ++ raster_names env.pid idx files.length),
       { s with rm_rasters := s.rm_rasters ++ raster_names env.pid idx files.length,
                trace := s.trace ++ patch_import_trace env.pid mem flagr idx files }) := by
  induction files generalizing idx m2b s with
  | nil => simp [import_files, raster_names, patch_import_trace]
  | cons f rest ih =>
    have hf : f.1 ∈ ghsT := hall f (List.mem_cons_self f rest)
    have hnf : ¬(f.1 ∈ s2T ∧ ps = true) := hnot f (List.mem_cons_self f rest)
    have hrest : ∀ g ∈ rest, g.1 ∈ ghsT := fun g hg => hall g (List.mem_cons_of_mem f hg)
    have hnrest : ∀ g ∈ rest, ¬(g.1 ∈ s2T ∧ ps = true) :=
      fun g hg => hnot g (List.mem_cons_of_mem f hg)
    rw [import_files, if_neg hnf, if_pos ⟨hf, rfl⟩]
    simp only [bind_eq_M_bind, M.run_bind, M.run_addRaster, M.run_emit, ih _ _ _ hrest hnrest,
      raster_names, patch_import_trace]
    simp [List.append_assoc, raster_names_length]

theorem s2_local_paths_length (dir : String) (pid : Nat) (idx : Nat) (urls : List String) :
    (s2_local_paths dir pid idx urls).length = urls.length := by
  induction urls generalizing idx with
  | nil => rfl
  | cons u rest ih => simp [s2_local_paths, ih]

theorem main_s2_only_nopatch_run (s2name : String) (mem : Int) (flagr : Bool) (env : Env)
    (s : S) (hs2 : s2name ≠ "")
    (hgrid : env.downloadFails ghs_s2_grid_url = false)
    (hdl : ∀ u ∈ tilesOf env.s2_rows, env.downloadFails u = false)
    (hn : (tilesOf env.s2_rows).length ≤ 1) :
    M.run (ghs.main ⟨"", "", s2name, "", mem⟩ flagr env) s =
      (Except.ok 0,
       { s with
          rm_files := s.rm_files ++ [onefile_zip ghs_s2_grid_url env.tempdirPath] ++
            s2_local_paths env.tempdirPath env.pid 0 (tilesOf env.s2_rows),
          rm_folders := s.rm_folders ++ [env.tempdirPath,
            onefile_unz ghs_s2_grid_url env.tempdirPath],
          rm_vectors := s.rm_vectors ++ s2_locator_vects env,
          trace := s.trace ++ s2_locator_trace env env.tempdirPath ++
            s2_dl_trace env env.tempdirPath 0 (tilesOf env.s2_rows) ++
            [Cmd.message "Importing..."] ++
            (if free_ram_mb env < mem then mem_clamp_warnings mem (free_ram_mb env) else []) ++
            ((s2_local_paths env.tempdirPath env.pid 0 (tilesOf env.s2_rows)).map
              (fun p => Cmd.rImport p s2name (min mem (free_ram_mb env)) flagr)) }) := by
  have h1 : ∀ t, M.run (get_tiles_ghs_s2 env env.tempdirPath) t =
      (Except.ok (tilesOf env.s2_rows),
       { t with rm_files := t.rm_files ++ [onefile_zip ghs_s2_grid_url env.tempdirPath],
                rm_folders := t.rm_folders ++ [onefile_unz ghs_s2_grid_url env.tempdirPath],
                rm_vectors := t.rm_vectors ++ s2_locator_vects env,
                trace := t.trace ++ s2_locator_trace env env.tempdirPath }) :=
    fun t => get_tiles_ghs_s2_run env env.tempdirPath t hgrid
  have h2 : ∀ t, M.run (download_s2_tiles env env.tempdirPath s2name (tilesOf env.s2_rows) 0) t =
      (Except.ok ((s2_local_paths env.tempdirPath env.pid 0 (tilesOf env.s2_rows)).map
                    (fun p => (p, s2name)),
                  s2_local_paths env.tempdirPath env.pid 0 (tilesOf env.s2_rows)),
       { t with rm_files := t.rm_files ++ s2_local_paths env.tempdirPath env.pid 0 (tilesOf env.s2_rows),
                trace := t.trace ++ s2_dl_trace env env.tempdirPath 0 (tilesOf env.s2_rows) }) :=
    fun t => download_s2_tiles_run env env.tempdirPath s2name (tilesOf env.s2_rows) 0 t hdl
  have hps : (1 < (s2_local_paths env.tempdirPath env.pid 0 (tilesOf env.s2_rows)).length) = False := by
    rw [s2_local_paths_length]
    simp
    omega
  simp [ghs.main, bind_eq_M_bind, M.run_bind, M.run_emit, M.run_addFolder, M.run_pure,
    h1, h2, test_memory_run, hps, hs2, import_files_nopatch_run, List.append_assoc]

theorem main_s2_only_patch_run (s2name : String) (mem : Int) (flagr : Bool) (env : Env)
    (s : S) (hs2 : s2name ≠ "")
    (hgrid : env.downloadFails ghs_s2_grid_url = false)
    (hdl : ∀ u ∈ tilesOf env.s2_rows, env.downloadFails u = false)
    (hn : 1 < (tilesOf env.s2_rows).length) :
    M.run (ghs.main ⟨"", "", s2name, "", mem⟩ flagr env) s =
      (Except.ok 0,
       { s with
          rm_files := (s.rm_files ++ [onefile_zip ghs_s2_grid_url env.tempdirPath] ++
            s2_local_paths env.tempdirPath env.pid 0 (tilesOf env.s2_rows)),
          rm_folders := (s.rm_folders ++ [env.tempdirPath,
            onefile_unz ghs_s2_grid_url env.tempdirPath]),
          rm_vectors := s.rm_vectors ++ s2_locator_vects env,
          rm_rasters := (s.rm_rasters ++ raster_names env.pid 0 (tilesOf env.s2_rows).length),
          trace := (s.trace ++ s2_locator_trace env env.tempdirPath ++
            s2_dl_trace env env.tempdirPath 0 (tilesOf env.s2_rows) ++
            [Cmd.message "Importing..."] ++
            (if free_ram_mb env < mem then mem_clamp_warnings mem (free_ram_mb env) else []) ++
            patch_import_trace env.pid (min mem (free_ram_mb env)) flagr 0
              ((s2_local_paths env.tempdirPath env.pid 0 (tilesOf env.s2_rows)).map
                (fun p => (p, s2name))) ++
            [Cmd.rPatch (raster_names env.pid 0 (tilesOf env.s2_rows).length) s2name]) }) := by
  have h1 : ∀ t, M.run (get_tiles_ghs_s2 env env.tempdirPath) t =
      (Except.ok (tilesOf env.s2_rows),
       { t with rm_files := t.rm_files ++ [onefile_zip ghs_s2_grid_url env.tempdirPath],
                rm_folders := t.rm_folders ++ [onefile_unz ghs_s2_grid_url env.tempdirPath],
                rm_vectors := t.rm_vectors ++ s2_locator_vects env,
                trace := t.trace ++ s2_locator_trace env env.tempdirPath }) :=
    fun t => get_tiles_ghs_s2_run env env.tempdirPath t hgrid
  have h2 : ∀ t, M.run (download_s2_tiles env env.tempdirPath s2name (tilesOf env.s2_rows) 0) t =
      (Except.ok ((s2_local_paths env.tempdirPath env.pid 0 (tilesOf env.s2_rows)).map
                    (fun p => (p, s2name)),
                  s2_local_paths env.tempdirPath env.pid 0 (tilesOf env.s2_rows)),
       { t with rm_files := (t.rm_files ++
                  s2_local_paths env.tempdirPath env.pid 0 (tilesOf env.s2_rows)),
                trace := t.trace ++ s2_dl_trace env env.tempdirPath 0 (tilesOf env.s2_rows) }) :=
    fun t => download_s2_tiles_run env env.tempdirPath s2name (tilesOf env.s2_rows) 0 t hdl
  have hps : (1 < (s2_local_paths env.tempdirPath env.pid 0 (tilesOf env.s2_rows)).length) = True := by
    rw [s2_local_paths_length]
    simp
    omega
  have hall : ∀ f ∈ (s2_local_paths env.tempdirPath env.pid 0 (tilesOf env.s2_rows)).map
      (fun p => (p, s2name)), f.1 ∈ s2_local_paths env.tempdirPath env.pid 0 (tilesOf env.s2_rows) := by
    intro f hf
    rcases List.mem_map.mp hf with ⟨p, hp, he⟩
    rw [← he]
    exact hp
  have h3 : ∀ t m2s m2b, M.run (import_files env (min mem (free_ram_mb env)) flagr
      (s2_local_paths env.tempdirPath env.pid 0 (tilesOf env.s2_rows)) [] true false
      ((s2_local_paths env.tempdirPath env.pid 0 (tilesOf env.s2_rows)).map
        (fun p => (p, s2name))) 0 m2s m2b) t =
      (Except.ok ((m2s ++ raster_names env.pid 0 (tilesOf env.s2_rows).length), m2b),
       { t with rm_rasters := (t.rm_rasters ++
            raster_names env.pid 0 (tilesOf env.s2_rows).length),
                trace := (t.trace ++ patch_import_trace env.pid (min mem (free_ram_mb env)) flagr 0
            ((s2_local_paths env.tempdirPath env.pid 0 (tilesOf env.s2_rows)).map
              (fun p => (p, s2name)))) }) := by
    intro t m2s m2b
    have := import_files_all_s2_run env (min mem (free_ram_mb env)) flagr
      (s2_local_paths env.tempdirPath env.pid 0 (tilesOf env.s2_rows)) [] false
      ((s2_local_paths env.tempdirPath env.pid 0 (tilesOf env.s2_rows)).map
        (fun p => (p, s2name))) 0 m2s m2b t hall
    simpa [s2_local_paths_length] using this
  simp [ghs.main, bind_eq_M_bind, M.run_bind, M.run_emit, M.run_addFolder, M.run_pure,
    h1, h2, test_memory_run, hps, hs2, h3, List.append_assoc]

theorem main_s1_only_run (s1name : String) (mem : Int) (flagr : Bool) (env : Env)
    (s : S) (hs1 : s1name ≠ "")
    (hdl : env.downloadFails ghs_built_s1_url = false) :
    M.run (ghs.main ⟨"", s1name, "", "", mem⟩ flagr env) s =
      (Except.ok 0,
       { s with
          rm_files := s.rm_files ++ [onefile_zip ghs_built_s1_url env.tempdirPath],
          rm_folders := (s.rm_folders ++ [env.tempdirPath,
            onefile_unz ghs_built_s1_url env.tempdirPath]),
          trace := (s.trace ++
            [Cmd.message "Downloading GHS built-up grid derived from Sentinel-1 (GHS-BUILT-S1)",
             Cmd.wgetDownload ghs_built_s1_url (onefile_zip ghs_built_s1_url env.tempdirPath),
             Cmd.extractAll (onefile_zip ghs_built_s1_url env.tempdirPath)
               (onefile_unz ghs_built_s1_url env.tempdirPath),
             Cmd.message "Importing..."] ++
            (if free_ram_mb env < mem then mem_clamp_warnings mem (free_ram_mb env) else []) ++
            [Cmd.rImport (s1_vrt_path env.tempdirPath) s1name (min mem (free_ram_mb env)) flagr]) }) := by
  have h1 : ∀ t, M.run (download_onefile env ghs_built_s1_url env.tempdirPath "tif") t =
      (Except.ok (onefile_payload ghs_built_s1_url env.tempdirPath "tif"),
       { t with rm_files := t.rm_files ++ [onefile_zip ghs_built_s1_url env.tempdirPath],
                rm_folders := t.rm_folders ++ [onefile_unz ghs_built_s1_url env.tempdirPath],
                trace := (t.trace ++
                  [Cmd.wgetDownload ghs_built_s1_url (onefile_zip ghs_built_s1_url env.tempdirPath),
                   Cmd.extractAll (onefile_zip ghs_built_s1_url env.tempdirPath)
                     (onefile_unz ghs_built_s1_url env.tempdirPath)]) }) :=
    fun t => download_onefile_run env ghs_built_s1_url env.tempdirPath "tif" t hdl
  simp [ghs.main, bind_eq_M_bind, M.run_bind, M.run_emit, M.run_addFolder, M.run_pure,
    h1, test_memory_run, hs1, import_files_nopatch_run, List.append_assoc,
    s1_vrt_path, s1_conv_path]

theorem main_geojson_missing_run (opts : Opts) (flagr : Bool) (env : Env) (s : S)
    (hb : opts.ghs_built ≠ "") (hv : env.vInGeojsonFound = false) :
    (M.run (ghs.main opts flagr env) s).1 =
      Except.error "The v.in.geojson module was not found, install it first" ∧
    countP isDownloadCmd (M.run (ghs.main opts flagr env) s).2.trace =
      countP isDownloadCmd s.trace := by
  by_cases hdir : opts.directory = ""
  · simp [ghs.main, bind_eq_M_bind, M.run_bind, M.run_emit, M.run_addFolder, M.run_pure,
      hdir, hb, hv]
  · by_cases hex : env.dirExists = true
    · simp [ghs.main, bind_eq_M_bind, M.run_bind, M.run_emit, M.run_addFolder, M.run_pure,
        hdir, hex, hb, hv]
    · simp [ghs.main, bind_eq_M_bind, M.run_bind, M.run_emit, M.run_addFolder, M.run_pure,
        hdir, hex, hb, hv, countP_append, countP, isDownloadCmd]

theorem main_s2_first_fail_run (s2name : String) (mem : Int) (flagr : Bool) (env : Env)
    (s : S) (u : String) (rest : List String) (hs2 : s2name ≠ "")
    (hgrid : env.downloadFails ghs_s2_grid_url = false)
    (hty : tilesOf env.s2_rows = u :: rest)
    (hfail : env.downloadFails u = true) :
    M.run (ghs.main ⟨"", "", s2name, "", mem⟩ flagr env) s =
      (Except.error ("There was a problem downloading " ++ u),
       { s with
          rm_files := (s.rm_files ++ [onefile_zip ghs_s2_grid_url env.tempdirPath,
            pyJoin env.tempdirPath (s2_tile_filename env.pid 0)]),
          rm_folders := (s.rm_folders ++ [env.tempdirPath,
            onefile_unz ghs_s2_grid_url env.tempdirPath]),
          rm_vectors := s.rm_vectors ++ s2_locator_vects env,
          trace := (s.trace ++ s2_locator_trace env env.tempdirPath ++
            [Cmd.message "Downloading 1 required tile of Sentinel-2 derived GHS built-up grid",
             Cmd.wgetDownload u (pyJoin env.tempdirPath (s2_tile_filename env.pid 0))]) }) := by
  have h1 : ∀ t, M.run (get_tiles_ghs_s2 env env.tempdirPath) t =
      (Except.ok (tilesOf env.s2_rows),
       { t with rm_files := t.rm_files ++ [onefile_zip ghs_s2_grid_url env.tempdirPath],
                rm_folders := t.rm_folders ++ [onefile_unz ghs_s2_grid_url env.tempdirPath],
                rm_vectors := t.rm_vectors ++ s2_locator_vects env,
                trace := t.trace ++ s2_locator_trace env env.tempdirPath }) :=
    fun t => get_tiles_ghs_s2_run env env.tempdirPath t hgrid
  simp [ghs.main, bind_eq_M_bind, M.run_bind, M.run_emit, M.run_addFolder, M.run_addFile,
    M.run_pure, h1, hty, hs2, download_s2_tiles, download_wget_fail env u _ _ hfail,
    List.append_assoc, natStr]
  rfl

theorem removeVectors_run (env : Env) (vs : List String) (s : S)
    (h : ∀ v ∈ vs, env.vectorExists v = true → env.gRemoveVectorFails v = false) :
    M.run (removeVectors env vs) s =
      (Except.ok (), { s with trace := s.trace ++ vect_clean_trace env vs }) := by
  induction vs generalizing s with
  | nil => simp [removeVectors, vect_clean_trace]
  | cons v rest ih =>
    have hrest : ∀ w ∈ rest, env.vectorExists w = true → env.gRemoveVectorFails w = false :=
      fun w hw => h w (List.mem_cons_of_mem v hw)
    by_cases hv : env.vectorExists v = true
    · have hnf : env.gRemoveVectorFails v = false := h v (List.mem_cons_self v rest) hv
      simp [removeVectors, bind_eq_M_bind, M.run_bind, M.run_emit, M.run_pure, hv, hnf,
        vect_clean_trace, ih _ hrest, List.append_assoc]
    · simp [removeVectors, bind_eq_M_bind, M.run_bind, M.run_emit, M.run_pure, hv,
        vect_clean_trace, ih _ hrest, List.append_assoc]

theorem removeRasters_run (env : Env) (rs : List String) (s : S)
    (h : ∀ r ∈ rs, env.rasterExists r = true → env.gRemoveRasterFails r = false) :
    M.run (removeRasters env rs) s =
      (Except.ok (), { s with trace := s.trace ++ rast_clean_trace env rs }) := by
  induction rs generalizing s with
  | nil => simp [removeRasters, rast_clean_trace]
  | cons r rest ih =>
    have hrest : ∀ w ∈ rest, env.rasterExists w = true → env.gRemoveRasterFails w = false :=
      fun w hw => h w (List.mem_cons_of_mem r hw)
    by_cases hr : env.rasterExists r = true
    · have hnf : env.gRemoveRasterFails r = false := h r (List.mem_cons_self r rest) hr
      simp [removeRasters, bind_eq_M_bind, M.run_bind, M.run_emit, M.run_pure, hr, hnf,
        rast_clean_trace, ih _ hrest, List.append_assoc]
    · simp [removeRasters, bind_eq_M_bind, M.run_bind, M.run_emit, M.run_pure, hr,
        rast_clean_trace, ih _ hrest, List.append_assoc]

/-- The file cleanup loop never aborts: every registered file gets
exactly one removal attempt, failures only add a warning. -/
theorem removeFiles_run (env : Env) (fs : List String) (s : S) :
    M.run (removeFiles env fs) s =
      (Except.ok (), { s with trace := s.trace ++ file_clean_trace env fs }) := by
  induction fs generalizing s with
  | nil => simp [removeFiles, file_clean_trace]
  | cons f rest ih =>
    by_cases hf : env.osRemoveFails f = true
    · simp [removeFiles, bind_eq_M_bind, M.run_bind, M.run_emit, M.run_pure, hf,
        file_clean_trace, ih, List.append_assoc]
    · simp [removeFiles, bind_eq_M_bind, M.run_bind, M.run_emit, M.run_pure, hf,
        file_clean_trace, ih, List.append_assoc]

/-- The folder cleanup loop never aborts: every registered folder that
is a directory gets exactly one removal attempt, failures only add a
warning. -/
theorem removeFolders_run (env : Env) (ds : List String) (s : S) :
    M.run (removeFolders env ds) s =
      (Except.ok (), { s with trace := s.trace ++ folder_clean_trace env ds }) := by
  induction ds generalizing s with
  | nil => simp [removeFolders, folder_clean_trace]
  | cons d rest ih =>
    by_cases hd : env.isDirFolder d = true
    · by_cases hrm : env.rmtreeFails d = true
      · simp [removeFolders, bind_eq_M_bind, M.run_bind, M.run_emit, M.run_pure, hd, hrm,
          folder_clean_trace, ih, List.append_assoc]
      · simp [removeFolders, bind_eq_M_bind, M.run_bind, M.run_emit, M.run_pure, hd, hrm,
          folder_clean_trace, ih, List.append_assoc]
    · simp [removeFolders, bind_eq_M_bind, M.run_bind, M.run_emit, M.run_pure, hd,
        folder_clean_trace, ih, List.append_assoc]

/-- As long as no still-existing dataset fails its `g.remove`, `cleanup`
completes and its trace is exactly one removal attempt per registered
resource (plus warnings for file/folder failures), in registry order. -/
theorem cleanup_run (env : Env) (s : S)
    (hv : ∀ v ∈ s.rm_vectors, env.vectorExists v = true → env.gRemoveVectorFails v = false)
    (hr : ∀ r ∈ s.rm_rasters, env.rasterExists r = true → env.gRemoveRasterFails r = false) :
    M.run (cleanup env) s =
      (Except.ok (), { s with trace := s.trace ++ cleanup_trace env s }) := by
  obtain ⟨fi, fo, ra, ve, tl, sg, tg, gd, tr⟩ := s
  simp only [cleanup, cleanup_trace, bind_eq_M_bind, M.run_bind, M.run_emit, M.run_getS]
  rcases tg with _ | tgv <;> rcases gd with _ | gdv <;> rcases tl with _ | tlv <;>
    rcases sg with _ | sgv <;>
    simp [bind_eq_M_bind, M.run_bind, M.run_emit, M.run_pure,
      removeVectors_run env ve _ hv, removeRasters_run env ra _ hr,
      removeFiles_run, removeFolders_run, List.append_assoc]

set_option maxHeartbeats 1000000 in
theorem main_ghs_only_patch_run (bname : String) (mem : Int) (flagr : Bool) (env : Env)
    (s : S) (hb : bname ≠ "") (hgj : env.vInGeojsonFound = true)
    (hok : env.tmplocEpsgOk = true)
    (hdl : ∀ t ∈ tilesOf env.ghs_rows, env.downloadFails (ghs_tile_url t) = false)
    (hn : 1 < (tilesOf env.ghs_rows).length) :
    M.run (ghs.main ⟨bname, "", "", "", mem⟩ flagr env) s =
      (Except.ok 0,
       { s with
          rm_files := (s.rm_files ++
            (tilesOf env.ghs_rows).map (fun t => onefile_zip (ghs_tile_url t) env.tempdirPath)),
          rm_folders := (s.rm_folders ++ env.tempdirPath ::
            (tilesOf env.ghs_rows).map (fun t => onefile_unz (ghs_tile_url t) env.tempdirPath)),
          rm_vectors := s.rm_vectors ++ ghs_locator_vects env,
          rm_rasters := (s.rm_rasters ++ raster_names env.pid 0 (tilesOf env.ghs_rows).length),
          tmploc := some ("temp_import_location_" ++ natStr env.pid),
          srcgisrc := some env.tempfilePath,
          tgtgisrc := some env.gisrcInitial,
          gisdbase := some env.gisenvDbase,
          trace := (s.trace ++ ghs_locator_trace env ++
            ghs_dl_trace env env.tempdirPath 0 (tilesOf env.ghs_rows) ++
            [Cmd.message "Importing..."] ++
            (if free_ram_mb env < mem then mem_clamp_warnings mem (free_ram_mb env) else []) ++
            patch_import_trace env.pid (min mem (free_ram_mb env)) flagr 0
              (((tilesOf env.ghs_rows).map
                (fun t => onefile_payload (ghs_tile_url t) env.tempdirPath "tif")).map
                  (fun p => (p, bname))) ++
            [Cmd.rPatch (raster_names env.pid 0 (tilesOf env.ghs_rows).length) bname]) }) := by
  have h1 : ∀ t, M.run (get_tiles_ghs_built env env.tempdirPath) t =
      (Except.ok (tilesOf env.ghs_rows),
       { t with gisdbase := some env.gisenvDbase,
                tgtgisrc := some env.gisrcInitial,
                srcgisrc := some env.tempfilePath,
                tmploc := some ("temp_import_location_" ++ natStr env.pid),
                rm_vectors := t.rm_vectors ++ ghs_locator_vects env,
                trace := t.trace ++ ghs_locator_trace env }) :=
    fun t => get_tiles_ghs_built_run env env.tempdirPath t hok
  have h2 : ∀ t, M.run (download_ghs_tiles env env.tempdirPath bname (tilesOf env.ghs_rows) 0) t =
      (Except.ok ((((tilesOf env.ghs_rows).map
                    (fun w => onefile_payload (ghs_tile_url w) env.tempdirPath "tif")).map
                    (fun p => (p, bname))),
                  (tilesOf env.ghs_rows).map
                    (fun w => onefile_payload (ghs_tile_url w) env.tempdirPath "tif")),
       { t with
          rm_files := (t.rm_files ++
            (tilesOf env.ghs_rows).map (fun w => onefile_zip (ghs_tile_url w) env.tempdirPath)),
          rm_folders := (t.rm_folders ++
            (tilesOf env.ghs_rows).map (fun w => onefile_unz (ghs_tile_url w) env.tempdirPath)),
          trace := t.trace ++ ghs_dl_trace env env.tempdirPath 0 (tilesOf env.ghs_rows) }) :=
    fun t => download_ghs_tiles_run env env.tempdirPath bname (tilesOf env.ghs_rows) 0 t hdl
  have hall : ∀ f ∈ (tilesOf env.ghs_rows).map
      ((fun p => (p, bname)) ∘ (fun w : String => onefile_payload (ghs_tile_url w) env.tempdirPath "tif")),
      f.1 ∈ (tilesOf env.ghs_rows).map
        (fun w => onefile_payload (ghs_tile_url w) env.tempdirPath "tif") := by
    intro f hf
    rcases List.mem_map.mp hf with ⟨w, hw, he⟩
    rw [← he]
    simp only [Function.comp_apply]
    exact List.mem_map.mpr ⟨w, hw, rfl⟩
  have hnot : ∀ f ∈ (tilesOf env.ghs_rows).map
      ((fun p => (p, bname)) ∘ (fun w : String => onefile_payload (ghs_tile_url w) env.tempdirPath "tif")),
      ¬(f.1 ∈ ([] : List String) ∧ false = true) := by
    intro f hf hc
    simp at hc
  have h3 : ∀ t m2s m2b, M.run (import_files env (min mem (free_ram_mb env)) flagr
      [] ((tilesOf env.ghs_rows).map
        (fun w => onefile_payload (ghs_tile_url w) env.tempdirPath "tif")) false true
      ((tilesOf env.ghs_rows).map
        ((fun p => (p, bname)) ∘ (fun w : String => onefile_payload (ghs_tile_url w) env.tempdirPath "tif")))
      0 m2s m2b) t =
      (Except.ok (m2s, (m2b ++ raster_names env.pid 0 (tilesOf env.ghs_rows).length)),
       { t with rm_rasters := (t.rm_rasters ++
            raster_names env.pid 0 (tilesOf env.ghs_rows).length),
                trace := (t.trace ++ patch_import_trace env.pid (min mem (free_ram_mb env)) flagr 0
            ((tilesOf env.ghs_rows).map
              ((fun p => (p, bname)) ∘
                (fun w : String => onefile_payload (ghs_tile_url w) env.tempdirPath "tif")))) }) := by
    intro t m2s m2b
    have := import_files_all_ghs_run env (min mem (free_ram_mb env)) flagr
      [] ((tilesOf env.ghs_rows).map
        (fun w => onefile_payload (ghs_tile_url w) env.tempdirPath "tif")) false
      ((tilesOf env.ghs_rows).map
        ((fun p => (p, bname)) ∘ (fun w : String => onefile_payload (ghs_tile_url w) env.tempdirPath "tif")))
      0 m2s m2b t hall hnot
    simpa using this
  have hd : decide (1 < (tilesOf env.ghs_rows).length) = true := decide_eq_true hn
  simp [ghs.main, bind_eq_M_bind, M.run_bind, M.run_emit, M.run_addFolder, M.run_pure,
    hb, hgj, h1, h2, test_memory_run, hd, hn, h3, List.append_assoc]

theorem s2_locator_no_import_no_patch (env : Env) (dir : String) :
    countP isImportCmd (s2_locator_trace env dir) = 0 ∧
    countP isPatchCmd (s2_locator_trace env dir) = 0 := by
  constructor <;>
    simp [s2_locator_trace, countP, List.filter_cons, isImportCmd, isPatchCmd]

theorem ghs_locator_no_import_no_patch (env : Env) :
    countP isImportCmd (ghs_locator_trace env) = 0 ∧
    countP isPatchCmd (ghs_locator_trace env) = 0 := by
  constructor <;>
    simp [ghs_locator_trace, countP, List.filter_cons, isImportCmd, isPatchCmd]

theorem s2_dl_trace_cmds (env : Env) (dir : String) (idx : Nat) (urls : List String) :
    countP isImportCmd (s2_dl_trace env dir idx urls) = 0 ∧
    countP isPatchCmd (s2_dl_trace env dir idx urls) = 0 ∧
    countP isDownloadCmd (s2_dl_trace env dir idx urls) = urls.length := by
  induction urls generalizing idx with
  | nil => simp [s2_dl_trace, countP]
  | cons u rest ih =>
    rcases ih (idx + 1) with ⟨h1, h2, h3⟩
    refine ⟨?_, ?_, ?_⟩ <;>
      simp [s2_dl_trace, countP, List.filter_cons, isImportCmd, isPatchCmd, isDownloadCmd]
        at h1 h2 h3 ⊢ <;>
      first
        | exact h1
        | exact h2
        | exact h3

theorem ghs_dl_trace_cmds (env : Env) (dir : String) (idx : Nat) (tiles : List String) :
    countP isImportCmd (ghs_dl_trace env dir idx tiles) = 0 ∧
    countP isPatchCmd (ghs_dl_trace env dir idx tiles) = 0 ∧
    countP isDownloadCmd (ghs_dl_trace env dir idx tiles) = tiles.length := by
  induction tiles generalizing idx with
  | nil => simp [ghs_dl_trace, countP]
  | cons t rest ih =>
    rcases ih (idx + 1) with ⟨h1, h2, h3⟩
    refine ⟨?_, ?_, ?_⟩ <;>
      simp [ghs_dl_trace, countP, List.filter_cons, isImportCmd, isPatchCmd, isDownloadCmd]
        at h1 h2 h3 ⊢ <;>
      first
        | exact h1
        | exact h2
        | exact h3

theorem mem_clamp_no_cmds (m fr : Int) :
    countP isImportCmd (mem_clamp_warnings m fr) = 0 ∧
    countP isPatchCmd (mem_clamp_warnings m fr) = 0 ∧
    countP isDownloadCmd (mem_clamp_warnings m fr) = 0 := by
  refine ⟨?_, ?_, ?_⟩ <;>
    simp [mem_clamp_warnings, countP, List.filter_cons, isImportCmd, isPatchCmd, isDownloadCmd]

theorem patch_import_trace_cmds (pid : Nat) (mem : Int) (flagr : Bool) (idx : Nat)
    (files : List (String × String)) :
    countP isImportCmd (patch_import_trace pid mem flagr idx files) = files.length ∧
    countP isPatchCmd (patch_import_trace pid mem flagr idx files) = 0 ∧
    countP isDownloadCmd (patch_import_trace pid mem flagr idx files) = 0 := by
  induction files generalizing idx with
  | nil => simp [patch_import_trace, countP]
  | cons f rest ih =>
    rcases ih (idx + 1) with ⟨h1, h2, h3⟩
    refine ⟨?_, ?_, ?_⟩ <;>
      simp [patch_import_trace, countP, List.filter_cons, isImportCmd, isPatchCmd, isDownloadCmd]
        at h1 h2 h3 ⊢ <;>
      first
        | exact h1
        | exact h2
        | exact h3

theorem importOutputs_patch_trace (pid : Nat) (mem : Int) (flagr : Bool) (idx : Nat)
    (files : List (String × String)) :
    importOutputs (patch_import_trace pid mem flagr idx files) =
      raster_names pid idx files.length := by
  induction files generalizing idx with
  | nil => simp [patch_import_trace, raster_names, importOutputs]
  | cons f rest ih =>
    simp [patch_import_trace, raster_names, importOutputs] at ih ⊢
    exact ih (idx + 1)

theorem importOutputs_s2_locator (env : Env) (dir : String) :
    importOutputs (s2_locator_trace env dir) = [] := by
  simp [s2_locator_trace, importOutputs]

theorem importOutputs_s2_dl (env : Env) (dir : String) (idx : Nat) (urls : List String) :
    importOutputs (s2_dl_trace env dir idx urls) = [] := by
  induction urls generalizing idx with
  | nil => simp [s2_dl_trace, importOutputs]
  | cons u rest ih =>
    simp [s2_dl_trace, importOutputs] at ih ⊢
    exact ih (idx + 1)

theorem importOutputs_mem_clamp (m fr : Int) :
    importOutputs (mem_clamp_warnings m fr) = [] := by
  simp [mem_clamp_warnings, importOutputs]

theorem vect_clean_trace_happy (env : Env) (vs : List String)
    (h : ∀ v ∈ vs, env.vectorExists v = true) :
    vect_clean_trace env vs = vs.map Cmd.gRemoveVector := by
  induction vs with
  | nil => rfl
  | cons v rest ih =>
    simp [vect_clean_trace, h v (List.mem_cons_self v rest),
      ih (fun w hw => h w (List.mem_cons_of_mem v hw))]

theorem rast_clean_trace_happy (env : Env) (rs : List String)
    (h : ∀ r ∈ rs, env.rasterExists r = true) :
    rast_clean_trace env rs = rs.map Cmd.gRemoveRaster := by
  induction rs with
  | nil => rfl
  | cons r rest ih =>
    simp [rast_clean_trace, h r (List.mem_cons_self r rest),
      ih (fun w hw => h w (List.mem_cons_of_mem r hw))]

theorem file_clean_trace_nofail (env : Env) (fs : List String)
    (h : ∀ f ∈ fs, env.osRemoveFails f = false) :
    file_clean_trace env fs = fs.map Cmd.osRemove := by
  induction fs with
  | nil => rfl
  | cons f rest ih =>
    simp [file_clean_trace, h f (List.mem_cons_self f rest),
      ih (fun w hw => h w (List.mem_cons_of_mem f hw))]

theorem folder_clean_trace_happy (env : Env) (ds : List String)
    (h : ∀ d ∈ ds, env.isDirFolder d = true ∧ env.rmtreeFails d = false) :
    folder_clean_trace env ds = ds.map Cmd.rmtree := by
  induction ds with
  | nil => rfl
  | cons d rest ih =>
    simp [folder_clean_trace, (h d (List.mem_cons_self d rest)).1,
      (h d (List.mem_cons_self d rest)).2,
      ih (fun w hw => h w (List.mem_cons_of_mem d hw))]

/-- A warning is emitted for every failing file removal. -/
theorem file_clean_trace_warning (env : Env) (fs : List String) (f : String)
    (hmem : f ∈ fs) (hfail : env.osRemoveFails f = true) :
    Cmd.warning ("Cannot remove file <" ++ f ++ ">") ∈ file_clean_trace env fs := by
  induction fs with
  | nil => simp at hmem
  | cons g rest ih =>
    rcases List.mem_cons.mp hmem with h | h
    · subst h
      simp [file_clean_trace, hfail]
    · by_cases hg : env.osRemoveFails g = true <;>
        simp [file_clean_trace, hg, ih h]

/-- C3: for every requested memory budget `m` and available-memory value
`f = freeRAM("MB", 100)` (physical available plus free swap, in MB),
the import step uses `m` unchanged when `f ≥ m` and exactly the clamped `f`
(with warnings) when `f < m`: the effective memory is `min m f`, and the
clamp is a warning, never an error. -/
theorem claim_C3_memory_clamp (m : Int) (env : Env) (s : S) :
    freeRAM "MB" 100 env.memAvailable env.swapFree = Except.ok (free_ram_mb env) ∧
    M.run (test_memory m env) s =
      (Except.ok (min m (free_ram_mb env)),
       { s with trace := s.trace ++
          (if free_ram_mb env < m then mem_clamp_warnings m (free_ram_mb env) else []) }) := by
  constructor
  · rw [freeRAM_MB]
    unfold free_ram_mb
    norm_num
  · exact test_memory_run m env s

/-- C10: the program only ever calls `freeRAM` with unit "MB" (through
`test_memory`), on which the fatal unsupported-unit branch is
unreachable — `freeRAM "MB"` always returns a non-negative number of
megabytes, and `test_memory` never aborts. -/
theorem claim_C10_freeram_mb_safe (percent memA swapF : Nat) (m : Int) (env : Env) (s : S) :
    (∃ v : Int, freeRAM "MB" percent memA swapF = Except.ok v ∧ 0 ≤ v) ∧
    (M.run (test_memory m env) s).1 = Except.ok (min m (free_ram_mb env)) := by
  constructor
  · refine ⟨round ((((memA : ℚ) + (swapF : ℚ)) / 1024 ^ 2) * percent / 100),
      freeRAM_MB percent memA swapF, ?_⟩
    rw [round_eq]
    have hq : (0 : ℚ) ≤ (((memA : ℚ) + (swapF : ℚ)) / 1024 ^ 2) * percent / 100 := by
      positivity
    exact Int.floor_nonneg.mpr (by linarith)
  · rw [test_memory_run]

/-- C8: `download_onefile` downloads the zip, extracts it fully into the
dedicated `<basename>_unzipped` subdirectory, and returns the payload
path constructed purely by convention (basename joined with the expected
extension inside that subdirectory) — a function of the URL, directory
and format only, with no check that the file exists after extraction. -/
theorem claim_C8_onefile_convention (env : Env) (url dir fmt : String) (s : S)
    (h : env.downloadFails url = false) :
    M.run (download_onefile env url dir fmt) s =
      (Except.ok (onefile_payload url dir fmt),
       { s with rm_files := s.rm_files ++ [onefile_zip url dir],
                rm_folders := s.rm_folders ++ [onefile_unz url dir],
                trace := s.trace ++
                  [Cmd.wgetDownload url (onefile_zip url dir),
                   Cmd.extractAll (onefile_zip url dir) (onefile_unz url dir)] }) ∧
    onefile_payload url dir fmt =
      pyJoin (pyJoin dir (pySplitextRoot (pyBasename (urlPath url)) ++ "_unzipped"))
        (pySplitextRoot (pyBasename (urlPath url)) ++ "." ++ fmt) ∧
    onefile_unz url dir = pyJoin dir (pySplitextRoot (pyBasename (urlPath url)) ++ "_unzipped") :=
  ⟨download_onefile_run env url dir fmt s h, rfl, rfl⟩

set_option maxRecDepth 40000 in
theorem claim_C8_onefile_convention_witness :
    envW.downloadFails ghs_s2_grid_url = false ∧
    M.run (download_onefile envW ghs_s2_grid_url "/tmp/wd" "shp") S0 =
      (Except.ok (onefile_payload ghs_s2_grid_url "/tmp/wd" "shp"),
       { S0 with rm_files := S0.rm_files ++ [onefile_zip ghs_s2_grid_url "/tmp/wd"],
                 rm_folders := S0.rm_folders ++ [onefile_unz ghs_s2_grid_url "/tmp/wd"],
                 trace := S0.trace ++
                   [Cmd.wgetDownload ghs_s2_grid_url (onefile_zip ghs_s2_grid_url "/tmp/wd"),
                    Cmd.extractAll (onefile_zip ghs_s2_grid_url "/tmp/wd")
                      (onefile_unz ghs_s2_grid_url "/tmp/wd")] }) ∧
    onefile_payload ghs_s2_grid_url "/tmp/wd" "shp" =
      "/tmp/wd/GHS_BUILT_S2comp2018_GLOBE_R2020A_tile_schema_unzipped/GHS_BUILT_S2comp2018_GLOBE_R2020A_tile_schema.shp" := by
  refine ⟨by decide, (claim_C8_onefile_convention envW ghs_s2_grid_url "/tmp/wd" "shp" S0
    (by decide)).1, by decide⟩

/-- C9: in any run that requests ghs_built while `v.in.geojson` is
unavailable, the run aborts with the missing-capability message before
any download: no download command is ever traced. -/
theorem claim_C9_missing_capability (opts : Opts) (flagr : Bool) (env : Env) (s : S)
    (hb : opts.ghs_built ≠ "") (hv : env.vInGeojsonFound = false) :
    (M.run (ghs.main opts flagr env) s).1 =
      Except.error "The v.in.geojson module was not found, install it first" ∧
    countP isDownloadCmd (M.run (ghs.main opts flagr env) s).2.trace =
      countP isDownloadCmd s.trace :=
  main_geojson_missing_run opts flagr env s hb hv

theorem claim_C9_missing_capability_witness :
    (("b" : String) ≠ "") ∧ envNoGeo.vInGeojsonFound = false ∧
    ((M.run (ghs.main ⟨"b", "", "", "", 300⟩ true envNoGeo) S0).1 =
      Except.error "The v.in.geojson module was not found, install it first" ∧
     countP isDownloadCmd (M.run (ghs.main ⟨"b", "", "", "", 300⟩ true envNoGeo) S0).2.trace =
      countP isDownloadCmd S0.trace) :=
  ⟨by decide, by decide,
   claim_C9_missing_capability ⟨"b", "", "", "", 300⟩ true envNoGeo S0 (by decide) (by decide)⟩

/-- C7 (counterexample): with one registered raster whose `g.remove`
fails and one registered file after it, the cleanup aborts at the raster
and never attempts the file removal — refuting the claim that every
removal failure is a non-fatal warning and cleanup always proceeds
through every registered resource. -/
theorem claim_C7_counterexample :
    sC7.rm_files = ["f1"] ∧
    (M.run (cleanup envC7) sC7).1 = Except.error "g.remove raster r1 failed" ∧
    countP isOsRemoveCmd (M.run (cleanup envC7) sC7).2.trace = 0 :=
  ⟨rfl, rfl, rfl⟩

/-- C7 (amended): file and folder removal failures during cleanup are
caught and reported as non-fatal warnings, and those two loops always
proceed through every registered entry; dataset (`g.remove`) removals,
however, are attempted only when the dataset is found and are not
failure-guarded: a failing dataset removal raises and skips the rest of
the cleanup. -/
theorem claim_C7_amended :
    (∀ (env : Env) (fs : List String) (s : S),
      M.run (removeFiles env fs) s =
        (Except.ok (), { s with trace := s.trace ++ file_clean_trace env fs })) ∧
    (∀ (env : Env) (ds : List String) (s : S),
      M.run (removeFolders env ds) s =
        (Except.ok (), { s with trace := s.trace ++ folder_clean_trace env ds })) ∧
    (∀ (env : Env) (fs : List String) (f : String), f ∈ fs → env.osRemoveFails f = true →
      Cmd.warning ("Cannot remove file <" ++ f ++ ">") ∈ file_clean_trace env fs) ∧
    (∀ (env : Env) (r : String) (rest : List String) (s : S),
      env.rasterExists r = true → env.gRemoveRasterFails r = true →
      M.run (removeRasters env (r :: rest)) s =
        (Except.error ("g.remove raster " ++ r ++ " failed"),
         { s with trace := s.trace ++ [Cmd.gRemoveRaster r] })) := by
  refine ⟨removeFiles_run, removeFolders_run,
    fun env fs f hm hf => file_clean_trace_warning env fs f hm hf, ?_⟩
  intro env r rest s h1 h2
  simp [removeRasters, bind_eq_M_bind, M.run_bind, M.run_emit, h1, h2]

theorem claim_C7_amended_witness :
    (("f1" : String) ∈ ["f1"] ∧ envC7.osRemoveFails "f1" = true ∧
      Cmd.warning ("Cannot remove file <" ++ "f1" ++ ">") ∈ file_clean_trace envC7 ["f1"]) ∧
    (envC7.rasterExists "r1" = true ∧ envC7.gRemoveRasterFails "r1" = true ∧
      M.run (removeRasters envC7 ["r1"]) sC7 =
        (Except.error ("g.remove raster " ++ "r1" ++ " failed"),
         { sC7 with trace := sC7.trace ++ [Cmd.gRemoveRaster "r1"] })) :=
  ⟨⟨by decide, by decide,
    claim_C7_amended.2.2.1 envC7 ["f1"] "f1" (by decide) (by decide)⟩,
   ⟨by decide, by decide,
    claim_C7_amended.2.2.2 envC7 "r1" [] sC7 (by decide) (by decide)⟩⟩

/-- C4: every `download_wget` call makes exactly one fetch attempt (one
wget command is traced whether it succeeds or fails, never a retry), a
failure is `grass.fatal` (the run aborts: once a computation errors, no
later step of the bind chain runs), and in a multi-tile run whose first
tile download fails the whole run ends in that error having attempted no
further download, no import and no mosaic. -/
theorem claim_C4_download_fatal_no_retry :
    (∀ (env : Env) (url p : String) (s : S), env.downloadFails url = false →
      M.run (download_wget env url p) s =
        (Except.ok 0, { s with trace := s.trace ++ [Cmd.wgetDownload url p] })) ∧
    (∀ (env : Env) (url p : String) (s : S), env.downloadFails url = true →
      M.run (download_wget env url p) s =
        (Except.error ("There was a problem downloading " ++ url),
         { s with trace := s.trace ++ [Cmd.wgetDownload url p] })) ∧
    (∀ {α β : Type} (m : M α) (f : α → M β) (e : String) (s s1 : S),
      M.run m s = (Except.error e, s1) → M.run (M.bind m f) s = (Except.error e, s1)) ∧
    (∀ (s2name : String) (mem : Int) (flagr : Bool) (env : Env) (s : S) (u : String)
      (rest : List String), s2name ≠ "" → env.downloadFails ghs_s2_grid_url = false →
      tilesOf env.s2_rows = u :: rest → env.downloadFails u = true →
      (M.run (ghs.main ⟨"", "", s2name, "", mem⟩ flagr env) s).1 =
        Except.error ("There was a problem downloading " ++ u) ∧
      countP isDownloadCmd (M.run (ghs.main ⟨"", "", s2name, "", mem⟩ flagr env) s).2.trace =
        countP isDownloadCmd s.trace + 2 ∧
      countP isImportCmd (M.run (ghs.main ⟨"", "", s2name, "", mem⟩ flagr env) s).2.trace =
        countP isImportCmd s.trace ∧
      countP isPatchCmd (M.run (ghs.main ⟨"", "", s2name, "", mem⟩ flagr env) s).2.trace =
        countP isPatchCmd s.trace) := by
  refine ⟨download_wget_ok, download_wget_fail, ?_, ?_⟩
  · intro α β m f e s s1 h
    simp [M.run_bind, h]
  · intro s2name mem flagr env s u rest hs2 hgrid hty hfail
    rw [main_s2_first_fail_run s2name mem flagr env s u rest hs2 hgrid hty hfail]
    refine ⟨rfl, ?_, ?_, ?_⟩ <;>
      simp [countP_append, countP, List.filter_append, List.filter_cons,
        s2_locator_trace, isDownloadCmd, isImportCmd, isPatchCmd]

set_option maxRecDepth 40000 in
theorem claim_C4_download_fatal_no_retry_witness :
    (("out" : String) ≠ "" ∧ envF.downloadFails ghs_s2_grid_url = false ∧
     tilesOf envF.s2_rows = "http://h/t1.tif" :: ["http://h/t2.tif"] ∧
     envF.downloadFails "http://h/t1.tif" = true) ∧
    ((M.run (ghs.main ⟨"", "", "out", "", 300⟩ true envF) S0).1 =
      Except.error ("There was a problem downloading " ++ "http://h/t1.tif") ∧
     countP isDownloadCmd (M.run (ghs.main ⟨"", "", "out", "", 300⟩ true envF) S0).2.trace =
      countP isDownloadCmd S0.trace + 2 ∧
     countP isImportCmd (M.run (ghs.main ⟨"", "", "out", "", 300⟩ true envF) S0).2.trace =
      countP isImportCmd S0.trace ∧
     countP isPatchCmd (M.run (ghs.main ⟨"", "", "out", "", 300⟩ true envF) S0).2.trace =
      countP isPatchCmd S0.trace) :=
  ⟨⟨by decide, by decide, by decide, by decide⟩,
   claim_C4_download_fatal_no_retry.2.2.2 "out" 300 true envF S0 "http://h/t1.tif"
     ["http://h/t2.tif"] (by decide) (by decide) (by decide) (by decide)⟩

/-- C5: a tile locator that selects zero tiles returns the empty list,
and a run whose requested product has zero overlapping tiles performs no
per-tile download, no import and no mosaic for it, yet still terminates
with exit value 0 (the only download is the tile-grid archive itself). -/
theorem claim_C5_zero_tiles_success :
    (∀ (env : Env) (gv rv : String) (rows : List String) (s : S), rows.length ≤ 1 →
      (M.run (get_tiles env gv rv rows) s).1 = Except.ok ([] : List String)) ∧
    (∀ (s2name : String) (mem : Int) (flagr : Bool) (env : Env) (s : S),
      s2name ≠ "" → env.downloadFails ghs_s2_grid_url = false →
      tilesOf env.s2_rows = [] →
      ∃ sf, M.run (ghs.main ⟨"", "", s2name, "", mem⟩ flagr env) s = (Except.ok 0, sf) ∧
        countP isImportCmd sf.trace = countP isImportCmd s.trace ∧
        countP isPatchCmd sf.trace = countP isPatchCmd s.trace ∧
        countP isDownloadCmd sf.trace = countP isDownloadCmd s.trace + 1) := by
  constructor
  · intro env gv rv rows s h
    rw [get_tiles_run]
    have : tilesOf rows = [] := by
      unfold tilesOf
      rw [List.drop_eq_nil_of_le h]
      rfl
    rw [this]
  · intro s2name mem flagr env s hs2 hgrid hty
    have hdl : ∀ u ∈ tilesOf env.s2_rows, env.downloadFails u = false := by
      rw [hty]
      intro u hu
      simp at hu
    have hn : (tilesOf env.s2_rows).length ≤ 1 := by
      rw [hty]
      simp
    refine ⟨_, main_s2_only_nopatch_run s2name mem flagr env s hs2 hgrid hdl hn, ?_, ?_, ?_⟩ <;>
      by_cases hc : free_ram_mb env < mem <;>
        simp [hty, hc, s2_local_paths, s2_dl_trace, countP_append, mem_clamp_warnings,
          countP, List.filter_append, List.filter_cons, s2_locator_trace,
          isDownloadCmd, isImportCmd, isPatchCmd]

set_option maxRecDepth 40000 in
theorem claim_C5_zero_tiles_success_witness :
    ((["head"] : List String).length ≤ 1 ∧
     (M.run (get_tiles envZ "g" "r" ["head"]) S0).1 = Except.ok ([] : List String)) ∧
    (("out" : String) ≠ "" ∧ envZ.downloadFails ghs_s2_grid_url = false ∧
     tilesOf envZ.s2_rows = [] ∧
     (∃ sf, M.run (ghs.main ⟨"", "", "out", "", 300⟩ true envZ) S0 = (Except.ok 0, sf) ∧
        countP isImportCmd sf.trace = countP isImportCmd S0.trace ∧
        countP isPatchCmd sf.trace = countP isPatchCmd S0.trace ∧
        countP isDownloadCmd sf.trace = countP isDownloadCmd S0.trace + 1)) :=
  ⟨⟨by decide, claim_C5_zero_tiles_success.1 envZ "g" "r" ["head"] S0 (by decide)⟩,
   ⟨by decide, by decide, by decide,
    claim_C5_zero_tiles_success.2 "out" 300 true envZ S0 (by decide) (by decide) (by decide)⟩⟩

theorem countP_nil (p : Cmd → Bool) : countP p [] = 0 := rfl

theorem importOutputs_nil : importOutputs [] = [] := rfl

theorem countP_cons (p : Cmd → Bool) (c : Cmd) (t : List Cmd) :
    countP p (c :: t) = (if p c = true then 1 else 0) + countP p t := by
  by_cases hc : p c = true <;> simp [countP, List.filter_cons, hc, Nat.add_comm]

theorem importOutputs_cons (c : Cmd) (t : List Cmd) :
    importOutputs (c :: t) =
      (match c with
        | Cmd.rImport _ o _ _ => [o]
        | _ => []) ++ importOutputs t := by
  cases c <;> rfl

theorem importOutputs_message (m : String) : importOutputs [Cmd.message m] = [] := rfl

theorem importOutputs_rpatch (i : List String) (o : String) :
    importOutputs [Cmd.rPatch i o] = [] := rfl

/-- C1: when exactly one tile is fetched for a logical output — a
GHS-S2 run whose locator yields a single tile, or a GHS-S1 run (whose
product is always a single file) — that tile is imported directly under
the user-supplied output name and no `r.patch` mosaic is executed. -/
theorem claim_C1_single_tile_direct_import :
    (∀ (s2name : String) (mem : Int) (flagr : Bool) (env : Env) (s : S) (u : String),
      s2name ≠ "" → env.downloadFails ghs_s2_grid_url = false →
      tilesOf env.s2_rows = [u] → env.downloadFails u = false →
      ∃ sf, M.run (ghs.main ⟨"", "", s2name, "", mem⟩ flagr env) s = (Except.ok 0, sf) ∧
        Cmd.rImport (pyJoin env.tempdirPath (s2_tile_filename env.pid 0)) s2name
          (min mem (free_ram_mb env)) flagr ∈ sf.trace ∧
        countP isImportCmd sf.trace = countP isImportCmd s.trace + 1 ∧
        countP isPatchCmd sf.trace = countP isPatchCmd s.trace) ∧
    (∀ (s1name : String) (mem : Int) (flagr : Bool) (env : Env) (s : S),
      s1name ≠ "" → env.downloadFails ghs_built_s1_url = false →
      ∃ sf, M.run (ghs.main ⟨"", s1name, "", "", mem⟩ flagr env) s = (Except.ok 0, sf) ∧
        Cmd.rImport (s1_vrt_path env.tempdirPath) s1name
          (min mem (free_ram_mb env)) flagr ∈ sf.trace ∧
        countP isImportCmd sf.trace = countP isImportCmd s.trace + 1 ∧
        countP isPatchCmd sf.trace = countP isPatchCmd s.trace) := by
  constructor
  · intro s2name mem flagr env s u hs2 hgrid hty hu
    have hdl : ∀ x ∈ tilesOf env.s2_rows, env.downloadFails x = false := by
      rw [hty]
      intro x hx
      simp at hx
      rw [hx]
      exact hu
    have hn : (tilesOf env.s2_rows).length ≤ 1 := by
      rw [hty]
      simp
    refine ⟨_, main_s2_only_nopatch_run s2name mem flagr env s hs2 hgrid hdl hn, ?_, ?_, ?_⟩ <;>
      by_cases hc : free_ram_mb env < mem <;>
        simp [hty, hc, s2_local_paths, s2_dl_trace, countP_append, mem_clamp_warnings,
          countP, List.filter_append, List.filter_cons, s2_locator_trace,
          isImportCmd, isPatchCmd]
  · intro s1name mem flagr env s hs1 hdl
    refine ⟨_, main_s1_only_run s1name mem flagr env s hs1 hdl, ?_, ?_, ?_⟩ <;>
      by_cases hc : free_ram_mb env < mem <;>
        simp [hc, countP_append, mem_clamp_warnings, countP, List.filter_append,
          List.filter_cons, isImportCmd, isPatchCmd]

set_option maxRecDepth 100000 in
theorem claim_C1_single_tile_direct_import_witness :
    (("out" : String) ≠ "" ∧ env1.downloadFails ghs_s2_grid_url = false ∧
     tilesOf env1.s2_rows = ["http://h/t1.tif"] ∧
     env1.downloadFails "http://h/t1.tif" = false ∧
     (∃ sf, M.run (ghs.main ⟨"", "", "out", "", 300⟩ true env1) S0 = (Except.ok 0, sf) ∧
        Cmd.rImport (pyJoin env1.tempdirPath (s2_tile_filename env1.pid 0)) "out"
          (min 300 (free_ram_mb env1)) true ∈ sf.trace ∧
        countP isImportCmd sf.trace = countP isImportCmd S0.trace + 1 ∧
        countP isPatchCmd sf.trace = countP isPatchCmd S0.trace)) ∧
    (("s1out" : String) ≠ "" ∧ envW.downloadFails ghs_built_s1_url = false ∧
     (∃ sf, M.run (ghs.main ⟨"", "s1out", "", "", 300⟩ true envW) S0 = (Except.ok 0, sf) ∧
        Cmd.rImport (s1_vrt_path envW.tempdirPath) "s1out"
          (min 300 (free_ram_mb envW)) true ∈ sf.trace ∧
        countP isImportCmd sf.trace = countP isImportCmd S0.trace + 1 ∧
        countP isPatchCmd sf.trace = countP isPatchCmd S0.trace)) :=
  ⟨⟨by decide, by decide, by decide, by decide,
    claim_C1_single_tile_direct_import.1 "out" 300 true env1 S0 "http://h/t1.tif"
      (by decide) (by decide) (by decide) (by decide)⟩,
   ⟨by decide, by decide,
    claim_C1_single_tile_direct_import.2 "s1out" 300 true envW S0 (by decide) (by decide)⟩⟩

/-- C2: in a GHS-S2 run whose locator yields more than one tile, the
number of uniquely named intermediate rasters equals the number of
overlapping tiles, the imports write exactly those intermediates in
download order, and exactly one mosaic (`r.patch`) runs, taking exactly
that set (in order) and producing the single named output. -/
theorem claim_C2_multi_tile_mosaic (s2name : String) (mem : Int) (flagr : Bool) (env : Env)
    (s : S) (hs2 : s2name ≠ "")
    (hgrid : env.downloadFails ghs_s2_grid_url = false)
    (hdl : ∀ u ∈ tilesOf env.s2_rows, env.downloadFails u = false)
    (hn : 1 < (tilesOf env.s2_rows).length) :
    ∃ sf, M.run (ghs.main ⟨"", "", s2name, "", mem⟩ flagr env) s = (Except.ok 0, sf) ∧
      sf.rm_rasters = s.rm_rasters ++ raster_names env.pid 0 (tilesOf env.s2_rows).length ∧
      (raster_names env.pid 0 (tilesOf env.s2_rows).length).length =
        (tilesOf env.s2_rows).length ∧
      (raster_names env.pid 0 (tilesOf env.s2_rows).length).Nodup ∧
      importOutputs sf.trace = importOutputs s.trace ++
        raster_names env.pid 0 (tilesOf env.s2_rows).length ∧
      countP isPatchCmd sf.trace = countP isPatchCmd s.trace + 1 ∧
      Cmd.rPatch (raster_names env.pid 0 (tilesOf env.s2_rows).length) s2name ∈ sf.trace := by
  refine ⟨_, main_s2_only_patch_run s2name mem flagr env s hs2 hgrid hdl hn,
    rfl, raster_names_length _ _ _, raster_names_nodup _ _ _, ?_, ?_, ?_⟩
  · by_cases hc : free_ram_mb env < mem <;>
      simp [hc, importOutputs_append, importOutputs_cons, importOutputs_s2_locator,
        importOutputs_s2_dl, importOutputs_patch_trace, importOutputs_mem_clamp,
        importOutputs_message, importOutputs_rpatch, importOutputs_nil,
        s2_local_paths_length, List.length_map]
  · by_cases hc : free_ram_mb env < mem <;>
      simp [hc, countP_append, countP_cons, countP_nil, mem_clamp_warnings, isPatchCmd,
        (s2_locator_no_import_no_patch env env.tempdirPath).2,
        (s2_dl_trace_cmds env env.tempdirPath 0 (tilesOf env.s2_rows)).2.1,
        (patch_import_trace_cmds env.pid (min mem (free_ram_mb env)) flagr 0
          ((s2_local_paths env.tempdirPath env.pid 0 (tilesOf env.s2_rows)).map
            (fun p => (p, s2name)))).2.1]
  · simp

set_option maxRecDepth 100000 in
theorem claim_C2_multi_tile_mosaic_witness :
    (("out" : String) ≠ "" ∧ envW.downloadFails ghs_s2_grid_url = false ∧
     (∀ u ∈ tilesOf envW.s2_rows, envW.downloadFails u = false) ∧
     1 < (tilesOf envW.s2_rows).length) ∧
    (∃ sf, M.run (ghs.main ⟨"", "", "out", "", 300⟩ true envW) S0 = (Except.ok 0, sf) ∧
      sf.rm_rasters = S0.rm_rasters ++ raster_names envW.pid 0 (tilesOf envW.s2_rows).length ∧
      (raster_names envW.pid 0 (tilesOf envW.s2_rows).length).length =
        (tilesOf envW.s2_rows).length ∧
      (raster_names envW.pid 0 (tilesOf envW.s2_rows).length).Nodup ∧
      importOutputs sf.trace = importOutputs S0.trace ++
        raster_names envW.pid 0 (tilesOf envW.s2_rows).length ∧
      countP isPatchCmd sf.trace = countP isPatchCmd S0.trace + 1 ∧
      Cmd.rPatch (raster_names envW.pid 0 (tilesOf envW.s2_rows).length) "out" ∈ sf.trace) :=
  ⟨⟨by decide, by decide, by decide, by decide⟩,
   claim_C2_multi_tile_mosaic "out" 300 true envW S0 (by decide) (by decide)
     (by decide) (by decide)⟩

/-- C6: (1) the process runs `main` and then, on both the normal and the
fatal exit path, runs the registered `cleanup` exactly once on the state
main left behind; (2) in a full multi-tile ghs_built run every temporary
artifact — downloaded archives, unzip folders, the ephemeral download
directory, temporary vectors and rasters, the temporary location and its
gisrc pointer file — ends up registered, and each registry only grows
(final value = initial value ++ new entries); (3) cleanup's trace is
`cleanup_trace`, which (4) under a fully successful removal environment
contains exactly one removal per registered resource. -/
theorem claim_C6_registries_drained :
    (∀ (opts : Opts) (flagr : Bool) (env : Env) (s0 : S),
      program opts flagr env s0 =
        ((M.run (ghs.main opts flagr env) s0).1,
         (M.run (cleanup env) (M.run (ghs.main opts flagr env) s0).2).2)) ∧
    (∀ (bname : String) (mem : Int) (flagr : Bool) (env : Env) (s : S),
      bname ≠ "" → env.vInGeojsonFound = true → env.tmplocEpsgOk = true →
      (∀ t ∈ tilesOf env.ghs_rows, env.downloadFails (ghs_tile_url t) = false) →
      1 < (tilesOf env.ghs_rows).length →
      ∃ sf, M.run (ghs.main ⟨bname, "", "", "", mem⟩ flagr env) s = (Except.ok 0, sf) ∧
        sf.rm_files = s.rm_files ++
          (tilesOf env.ghs_rows).map (fun t => onefile_zip (ghs_tile_url t) env.tempdirPath) ∧
        sf.rm_folders = s.rm_folders ++ env.tempdirPath ::
          (tilesOf env.ghs_rows).map (fun t => onefile_unz (ghs_tile_url t) env.tempdirPath) ∧
        sf.rm_vectors = s.rm_vectors ++ ghs_locator_vects env ∧
        sf.rm_rasters = s.rm_rasters ++
          raster_names env.pid 0 (tilesOf env.ghs_rows).length ∧
        sf.tmploc = some ("temp_import_location_" ++ natStr env.pid) ∧
        sf.srcgisrc = some env.tempfilePath ∧
        sf.tgtgisrc = some env.gisrcInitial) ∧
    (∀ (env : Env) (s : S),
      (∀ v ∈ s.rm_vectors, env.vectorExists v = true → env.gRemoveVectorFails v = false) →
      (∀ r ∈ s.rm_rasters, env.rasterExists r = true → env.gRemoveRasterFails r = false) →
      M.run (cleanup env) s =
        (Except.ok (), { s with trace := s.trace ++ cleanup_trace env s })) ∧
    (∀ (env : Env) (s : S),
      (∀ v ∈ s.rm_vectors, env.vectorExists v = true) →
      (∀ r ∈ s.rm_rasters, env.rasterExists r = true) →
      (∀ f ∈ s.rm_files, env.osRemoveFails f = false) →
      (∀ d ∈ s.rm_folders, env.isDirFolder d = true ∧ env.rmtreeFails d = false) →
      vect_clean_trace env s.rm_vectors = s.rm_vectors.map Cmd.gRemoveVector ∧
      rast_clean_trace env s.rm_rasters = s.rm_rasters.map Cmd.gRemoveRaster ∧
      file_clean_trace env s.rm_files = s.rm_files.map Cmd.osRemove ∧
      folder_clean_trace env s.rm_folders = s.rm_folders.map Cmd.rmtree) := by
  refine ⟨fun opts flagr env s0 => rfl, ?_, ?_, ?_⟩
  · intro bname mem flagr env s hb hgj hok hdl hn
    exact ⟨_, main_ghs_only_patch_run bname mem flagr env s hb hgj hok hdl hn,
      rfl, rfl, rfl, rfl, rfl, rfl, rfl⟩
  · intro env s hv hr
    exact cleanup_run env s hv hr
  · intro env s hv hr hf hd
    exact ⟨vect_clean_trace_happy env s.rm_vectors hv,
      rast_clean_trace_happy env s.rm_rasters hr,
      file_clean_trace_nofail env s.rm_files hf,
      folder_clean_trace_happy env s.rm_folders hd⟩

set_option maxRecDepth 100000 in
theorem claim_C6_registries_drained_witness :
    (("b" : String) ≠ "" ∧ envW.vInGeojsonFound = true ∧ envW.tmplocEpsgOk = true ∧
     (∀ t ∈ tilesOf envW.ghs_rows, envW.downloadFails (ghs_tile_url t) = false) ∧
     1 < (tilesOf envW.ghs_rows).length ∧
     (∃ sf, M.run (ghs.main ⟨"b", "", "", "", 300⟩ true envW) S0 = (Except.ok 0, sf) ∧
        sf.rm_files = S0.rm_files ++
          (tilesOf envW.ghs_rows).map (fun t => onefile_zip (ghs_tile_url t) envW.tempdirPath) ∧
        sf.rm_folders = S0.rm_folders ++ envW.tempdirPath ::
          (tilesOf envW.ghs_rows).map (fun t => onefile_unz (ghs_tile_url t) envW.tempdirPath) ∧
        sf.rm_vectors = S0.rm_vectors ++ ghs_locator_vects envW ∧
        sf.rm_rasters = S0.rm_rasters ++
          raster_names envW.pid 0 (tilesOf envW.ghs_rows).length ∧
        sf.tmploc = some ("temp_import_location_" ++ natStr envW.pid) ∧
        sf.srcgisrc = some envW.tempfilePath ∧
        sf.tgtgisrc = some envW.gisrcInitial)) ∧
    ((∀ v ∈ sClean.rm_vectors, envW.vectorExists v = true → envW.gRemoveVectorFails v = false) ∧
     M.run (cleanup envW) sClean =
       (Except.ok (), { sClean with trace := sClean.trace ++ cleanup_trace envW sClean })) ∧
    (file_clean_trace envW sClean.rm_files = sClean.rm_files.map Cmd.osRemove ∧
     folder_clean_trace envW sClean.rm_folders = sClean.rm_folders.map Cmd.rmtree) := by
  refine ⟨⟨by decide, by decide, by decide, by decide, by decide,
    claim_C6_registries_drained.2.1 "b" 300 true envW S0 (by decide) (by decide) (by decide)
      (by decide) (by decide)⟩,
    ⟨by decide, claim_C6_registries_drained.2.2.1 envW sClean (by decide) (by decide)⟩, ?_⟩
  have h := claim_C6_registries_drained.2.2.2 envW sClean (by decide) (by decide) (by decide)
    (by decide)
  exact ⟨h.2.2.1, h.2.2.2⟩
